import Mathlib

/-!
# CS330 final project: scene and view managers

A shallow embedding of `SceneManager.cpp` and `ViewManager.cpp`.

* `float`/`double` values are elements of an arbitrary field `R` (exact arithmetic).
* A C++ operation whose behaviour is undefined (an access outside the texture table, a
  dereference of a null pointer) yields `Except.error`; everything else yields `Except.ok`.
* `while` loops carry an explicit iteration budget which is computed from the state and is
  proved to be sufficient.
* Calls into OpenGL, GLFW, GLM, stb_image and the classes `ShaderManager`, `ShapeMeshes` and
  `Camera` are not part of the two source files.  Values they return are inputs of the
  embedded functions, and their observable effects are recorded in explicit state.
-/

namespace CS330

/-! ## Faults -/

/-- The ways in which a call can leave defined behaviour. -/
inductive Fault where
  | outOfBounds (index : Nat)
  | nullPointer
  | fuel
  deriving DecidableEq, Repr

/-! ## Vectors and matrices -/

/-- The type `glm::vec2`. -/
structure Vec2 (R : Type) where
  x : R
  y : R
  deriving DecidableEq, Repr

/-- The type `glm::vec3`. -/
structure Vec3 (R : Type) where
  x : R
  y : R
  z : R
  deriving DecidableEq, Repr

/-- The type `glm::vec4`. -/
structure Vec4 (R : Type) where
  r : R
  g : R
  b : R
  a : R
  deriving DecidableEq, Repr

/-- The type `glm::mat4`. -/
abbrev Mat4 (R : Type) : Type := Matrix (Fin 4) (Fin 4) R

/-! ## Shader state -/

/-- A value handed to one of the `ShaderManager::set...Value` methods. -/
inductive UniformValue (R : Type) where
  | boolValue (b : Bool)
  | intValue (i : Int)
  | floatValue (x : R)
  | vec2Value (v : Vec2 R)
  | vec3Value (v : Vec3 R)
  | vec4Value (v : Vec4 R)
  | mat4Value (m : Mat4 R)
  | sampler2DValue (slot : Int)

/-- Modelled from the spec: the class `ShaderManager` is not among the source files.  The spec
only says that matrices and uniforms are "fed to a shader" and "pushed to the shader state", so
the shader state is the log of uniform writes, oldest first. -/
structure ShaderManager (R : Type) where
  uniforms : List (String × UniformValue R)

/-- One call of a `ShaderManager::set...Value` method: the write is appended to the log. -/
def ShaderManager.setValue {R : Type} (sh : ShaderManager R) (name : String)
    (v : UniformValue R) : ShaderManager R :=
  { uniforms := sh.uniforms ++ [(name, v)] }

/-! ## OpenGL texture state -/

/-- The part of the OpenGL state the texture code touches: the texture names that have been
generated, the active texture unit (as an offset from `GL_TEXTURE0`) and the `GL_TEXTURE_2D`
binding of every unit. -/
structure GLState where
  textureNames : List Nat
  activeTexture : Nat
  binding2D : Nat → Nat

/-- The call `glGenTextures(1, &id)`; `name` is the texture name OpenGL hands out. -/
def GLState.glGenTextures (gl : GLState) (name : Nat) : GLState :=
  { gl with textureNames := gl.textureNames ++ [name] }

/-- The call `glActiveTexture(GL_TEXTURE0 + i)`. -/
def GLState.glActiveTexture (gl : GLState) (i : Nat) : GLState :=
  { gl with activeTexture := i }

/-- The call `glBindTexture(GL_TEXTURE_2D, id)`. -/
def GLState.glBindTexture (gl : GLState) (id : Nat) : GLState :=
  { gl with binding2D := fun u => if u = gl.activeTexture then id else gl.binding2D u }

/-! ## Scene manager data -/

/-- The struct `TEXTURE_INFO`; `ID` is a `GLuint`. -/
structure TEXTURE_INFO where
  ID : Nat
  tag : String
  deriving DecidableEq, Repr

/-- The struct `OBJECT_MATERIAL`. -/
structure OBJECT_MATERIAL (R : Type) where
  ambientColor : Vec3 R
  ambientStrength : R
  diffuseColor : Vec3 R
  specularColor : Vec3 R
  shininess : R
  tag : String
  deriving DecidableEq, Repr

/-- Modelled from the spec: the header `SceneManager.h`, which declares the array
`m_textureIDs`, is not among the source files.  Its length is taken from the comment of
`BindGLTextures`: "There are up to 16 slots." -/
def TEXTURE_SLOTS : Nat := 16

/-- The members of `SceneManager` together with the OpenGL texture state. -/
structure SceneManager (R : Type) where
  m_pShaderManager : Option (ShaderManager R)
  m_loadedTextures : Nat
  m_textureIDs : Fin TEXTURE_SLOTS → TEXTURE_INFO
  m_objectMaterials : List (OBJECT_MATERIAL R)
  gl : GLState

variable {R : Type}

/-- The read `m_textureIDs[index]`; outside the table the behaviour is undefined. -/
def SceneManager.readTexture (s : SceneManager R) (index : Nat) : Except Fault TEXTURE_INFO :=
  if h : index < TEXTURE_SLOTS then .ok (s.m_textureIDs ⟨index, h⟩) else .error (.outOfBounds index)

/-- The write `m_textureIDs[index] = e`; outside the table the behaviour is undefined. -/
def SceneManager.writeTexture (s : SceneManager R) (index : Nat) (e : TEXTURE_INFO) :
    Except Fault (SceneManager R) :=
  if index < TEXTURE_SLOTS then
    .ok { s with m_textureIDs := fun j => if j.val = index then e else s.m_textureIDs j }
  else .error (.outOfBounds index)

/-- The conversion of a `GLuint` to `int` (two's complement, 32 bits). -/
def GLuintToInt (u : Nat) : Int :=
  if u % 2 ^ 32 < 2 ^ 31 then ((u % 2 ^ 32 : Nat) : Int) else ((u % 2 ^ 32 : Nat) : Int) - 2 ^ 32

/-! ## Texture lookup -/

/-- The `while` loop of `FindTextureID`, state `(index, textureID, bFound)`. -/
def FindTextureID.loop (s : SceneManager R) (tag : String) :
    Nat → Nat → Int → Bool → Except Fault Int
  | 0, _, _, _ => .error .fuel
  | fuel + 1, index, textureID, bFound =>
    if index < s.m_loadedTextures ∧ bFound = false then
      match s.readTexture index with
      | .error f => .error f
      | .ok e =>
        if e.tag = tag then FindTextureID.loop s tag fuel index (GLuintToInt e.ID) true
        else FindTextureID.loop s tag fuel (index + 1) textureID bFound
    else .ok textureID

/-- The method `SceneManager::FindTextureID`. -/
def FindTextureID (s : SceneManager R) (tag : String) : Except Fault Int :=
  FindTextureID.loop s tag (s.m_loadedTextures + 1) 0 (-1) false

/-- The `while` loop of `FindTextureSlot`, state `(index, textureSlot, bFound)`. -/
def FindTextureSlot.loop (s : SceneManager R) (tag : String) :
    Nat → Nat → Int → Bool → Except Fault Int
  | 0, _, _, _ => .error .fuel
  | fuel + 1, index, textureSlot, bFound =>
    if index < s.m_loadedTextures ∧ bFound = false then
      match s.readTexture index with
      | .error f => .error f
      | .ok e =>
        if e.tag = tag then FindTextureSlot.loop s tag fuel index (index : Int) true
        else FindTextureSlot.loop s tag fuel (index + 1) textureSlot bFound
    else .ok textureSlot

/-- The method `SceneManager::FindTextureSlot`. -/
def FindTextureSlot (s : SceneManager R) (tag : String) : Except Fault Int :=
  FindTextureSlot.loop s tag (s.m_loadedTextures + 1) 0 (-1) false

/-- The tag stored in slot `i` of the table (the empty string outside the table). -/
def SceneManager.tagAt (s : SceneManager R) (i : Nat) : String :=
  if h : i < TEXTURE_SLOTS then (s.m_textureIDs ⟨i, h⟩).tag else ""

/-- The ID stored in slot `i` of the table (zero outside the table). -/
def SceneManager.idAt (s : SceneManager R) (i : Nat) : Nat :=
  if h : i < TEXTURE_SLOTS then (s.m_textureIDs ⟨i, h⟩).ID else 0

/-! ## Texture registration -/

/-- What `stbi_load` reports about a successfully parsed image file. -/
structure Image where
  width : Int
  height : Int
  colorChannels : Int
  deriving DecidableEq, Repr

/-- The method `SceneManager::CreateGLTexture`.  `stbi_load` is the file system as seen through
`stbi_load` (`none` for a null result) and `textureID` is the name `glGenTextures` hands out.
The two assignments to `m_textureIDs[m_loadedTextures]` are one write of the whole entry. -/
def CreateGLTexture (stbi_load : String → Option Image) (s : SceneManager R)
    (filename : String) (textureID : Nat) (tag : String) :
    Except Fault (Bool × SceneManager R) :=
  match stbi_load filename with
  | some image =>
    let gl₁ := (s.gl.glGenTextures textureID).glBindTexture textureID
    if image.colorChannels = 3 ∨ image.colorChannels = 4 then
      let gl₂ := gl₁.glBindTexture 0
      match s.writeTexture s.m_loadedTextures ⟨textureID, tag⟩ with
      | .error f => .error f
      | .ok s₁ => .ok (true, { s₁ with m_loadedTextures := s.m_loadedTextures + 1, gl := gl₂ })
    else .ok (false, { s with gl := gl₁ })
  | none => .ok (false, s)

/-- The method `SceneManager::BindGLTextures`: the `for` loop over `0 ≤ i < m_loadedTextures`. -/
def BindGLTextures (s : SceneManager R) : Except Fault (SceneManager R) :=
  match (List.range s.m_loadedTextures).foldlM
      (fun (gl : GLState) (i : Nat) =>
        match s.readTexture i with
        | .error f => Except.error f
        | .ok e => Except.ok ((gl.glActiveTexture i).glBindTexture e.ID))
      s.gl with
  | .error f => .error f
  | .ok gl => .ok { s with gl := gl }

/-- One registration request: file name, tag, and the name `glGenTextures` hands out if the
file loads. -/
structure TextureRequest where
  filename : String
  tag : String
  textureID : Nat
  deriving DecidableEq, Repr

/-- A sequence of `CreateGLTexture` calls whose results are not looked at, as in
`LoadSceneTextures`. -/
def CreateGLTextures (stbi_load : String → Option Image) :
    SceneManager R → List TextureRequest → Except Fault (SceneManager R)
  | s, [] => .ok s
  | s, q :: qs =>
    match CreateGLTexture stbi_load s q.filename q.textureID q.tag with
    | .error f => .error f
    | .ok (_, s₁) => CreateGLTextures stbi_load s₁ qs

/-- The files and tags of `SceneManager::LoadSceneTextures`, in call order; `glGen i` is the
name handed out for the `i`-th of them. -/
def sceneTextureRequests (glGen : Nat → Nat) : List TextureRequest :=
  [ ⟨"./textures/wax.jpg", "wax", glGen 0⟩,
    ⟨"./textures/wood_base.jpg", "wood", glGen 1⟩,
    ⟨"./textures/wood_worn.jpg", "wood_worn", glGen 2⟩,
    ⟨"./textures/placemat.jpg", "placemat", glGen 3⟩,
    ⟨"./textures/notebook_front.png", "d20", glGen 4⟩,
    ⟨"./textures/black_leather.png", "notebook", glGen 5⟩,
    ⟨"./textures/marble.jpg", "marble", glGen 6⟩,
    ⟨"./textures/metal.jpeg", "metal", glGen 7⟩,
    ⟨"./textures/glass.jpg", "glass", glGen 8⟩,
    ⟨"./textures/notebook_pages.jpg", "pages", glGen 9⟩ ]

/-- The method `SceneManager::LoadSceneTextures`. -/
def LoadSceneTextures (stbi_load : String → Option Image) (glGen : Nat → Nat)
    (s : SceneManager R) : Except Fault (SceneManager R) :=
  match CreateGLTextures stbi_load s (sceneTextureRequests glGen) with
  | .error f => .error f
  | .ok s₁ => BindGLTextures s₁

/-- The body of the loop of `DestroyGLTextures`, `glGenTextures(1, &m_textureIDs[i].ID)`:
the name `name` that OpenGL hands out is stored into the `ID` of entry `i`. -/
def DestroyGLTextures.body (st : SceneManager R) (i name : Nat) :
    Except Fault (SceneManager R) :=
  match st.readTexture i with
  | .error f => .error f
  | .ok e =>
    match st.writeTexture i { e with ID := name } with
    | .error f => .error f
    | .ok st₁ => .ok { st₁ with gl := st₁.gl.glGenTextures name }

/-- The method `SceneManager::DestroyGLTextures`: the `for` loop over `0 ≤ i < m_loadedTextures`.
`glGen i` is the name OpenGL hands out in round `i`. -/
def DestroyGLTextures (glGen : Nat → Nat) (s : SceneManager R) : Except Fault (SceneManager R) :=
  (List.range s.m_loadedTextures).foldlM
    (fun (st : SceneManager R) (i : Nat) => DestroyGLTextures.body st i (glGen i)) s

/-! ## Materials -/

/-- The `while` loop of `FindMaterial`, state `(index, bFound, material)`. -/
def FindMaterial.loop (mats : List (OBJECT_MATERIAL R)) (tag : String) :
    Nat → Nat → Bool → OBJECT_MATERIAL R → Except Fault (OBJECT_MATERIAL R)
  | 0, _, _, _ => .error .fuel
  | fuel + 1, index, bFound, material =>
    if index < mats.length ∧ bFound = false then
      match mats[index]? with
      | none => .error (.outOfBounds index)
      | some m =>
        if m.tag = tag then
          FindMaterial.loop mats tag fuel index true
            { material with
              ambientColor := m.ambientColor
              ambientStrength := m.ambientStrength
              diffuseColor := m.diffuseColor
              specularColor := m.specularColor
              shininess := m.shininess }
        else FindMaterial.loop mats tag fuel (index + 1) bFound material
    else .ok material

/-- The method `SceneManager::FindMaterial`; the reference parameter `material` is passed in
and handed back next to the return value. -/
def FindMaterial (s : SceneManager R) (tag : String) (material : OBJECT_MATERIAL R) :
    Except Fault (Bool × OBJECT_MATERIAL R) :=
  if s.m_objectMaterials.length = 0 then .ok (false, material)
  else
    match FindMaterial.loop s.m_objectMaterials tag (s.m_objectMaterials.length + 1) 0 false
        material with
    | .error f => .error f
    | .ok m => .ok (true, m)

/-! ## The materials of the scene -/

/-- The local `waxMaterial` of `DefineObjectMaterials`. -/
def waxMaterial [Field R] : OBJECT_MATERIAL R :=
  { ambientColor := ⟨0.05, 0.05, 0.05⟩
    ambientStrength := 0.5
    diffuseColor := ⟨0.5, 0.5, 0.5⟩
    specularColor := ⟨0.5, 0.5, 0.5⟩
    shininess := 1.0
    tag := "wax" }

/-- The local `placematMaterial` of `DefineObjectMaterials`. -/
def placematMaterial [Field R] : OBJECT_MATERIAL R :=
  { ambientColor := ⟨0.5, 0.5, 0.5⟩
    ambientStrength := 0.3
    diffuseColor := ⟨0.5, 0.5, 0.5⟩
    specularColor := ⟨0.5, 0.5, 0.5⟩
    shininess := 10.0
    tag := "placemat" }

/-- The local `woodMaterial` of `DefineObjectMaterials`. -/
def woodMaterial [Field R] : OBJECT_MATERIAL R :=
  { ambientColor := ⟨0.5, 0.5, 0.5⟩
    ambientStrength := 0.3
    diffuseColor := ⟨0.5, 0.5, 0.5⟩
    specularColor := ⟨0.3, 0.3, 0.3⟩
    shininess := 4.0
    tag := "wood" }

/-- The local `woodMaterial_Gray` of `DefineObjectMaterials`. -/
def woodMaterial_Gray [Field R] : OBJECT_MATERIAL R :=
  { ambientColor := ⟨0.2, 0.2, 0.2⟩
    ambientStrength := 0.6
    diffuseColor := ⟨0.2, 0.2, 0.2⟩
    specularColor := ⟨0.3, 0.3, 0.3⟩
    shininess := 4.0
    tag := "wood_gray" }

/-- The local `woodMaterial_Black` of `DefineObjectMaterials`. -/
def woodMaterial_Black [Field R] : OBJECT_MATERIAL R :=
  { ambientColor := ⟨0.08, 0.08, 0.08⟩
    ambientStrength := 0.4
    diffuseColor := ⟨0.08, 0.08, 0.08⟩
    specularColor := ⟨0.16, 0.16, 0.16⟩
    shininess := 3.0
    tag := "wood_black" }

/-- The local `woodMaterial_Black_PencilCap` of `DefineObjectMaterials`. -/
def woodMaterial_Black_PencilCap [Field R] : OBJECT_MATERIAL R :=
  { ambientColor := ⟨0.05, 0.05, 0.05⟩
    ambientStrength := 0.6
    diffuseColor := ⟨0.05, 0.05, 0.05⟩
    specularColor := ⟨0.09, 0.09, 0.09⟩
    shininess := 3.0
    tag := "wood_black_pencilcap" }

/-- The local `woodTableMaterial` of `DefineObjectMaterials`. -/
def woodTableMaterial [Field R] : OBJECT_MATERIAL R :=
  { ambientColor := ⟨0.5, 0.5, 0.5⟩
    ambientStrength := 0.7
    diffuseColor := ⟨0.5, 0.5, 0.5⟩
    specularColor := ⟨0.5, 0.5, 0.5⟩
    shininess := 3.0
    tag := "woodtable" }

/-- The local `notebookCoverMaterial` of `DefineObjectMaterials`. -/
def notebookCoverMaterial [Field R] : OBJECT_MATERIAL R :=
  { ambientColor := ⟨0.5, 0.5, 0.5⟩
    ambientStrength := 0.3
    diffuseColor := ⟨0.5, 0.5, 0.5⟩
    specularColor := ⟨0.5, 0.5, 0.5⟩
    shininess := 3.0
    tag := "notebookfront" }

/-- The local `goldMaterial` of `DefineObjectMaterials`. -/
def goldMaterial [Field R] : OBJECT_MATERIAL R :=
  { ambientColor := ⟨0.31, 0.251, 0.029⟩
    ambientStrength := 0.3
    diffuseColor := ⟨0.31, 0.251, 0.029⟩
    specularColor := ⟨0.4, 0.39, 0.39⟩
    shininess := 11.0
    tag := "metal_gold" }

/-- The local `marbleMaterial_blue` of `DefineObjectMaterials`. -/
def marbleMaterial_blue [Field R] : OBJECT_MATERIAL R :=
  { ambientColor := ⟨0.01, 0.01, 0.7⟩
    ambientStrength := 0.5
    diffuseColor := ⟨0.05, 0.05, 0.7⟩
    specularColor := ⟨0.24, 0.24, 0.7⟩
    shininess := 13.0
    tag := "marble_blue" }

/-- The local `marbleMaterial_green` of `DefineObjectMaterials`. -/
def marbleMaterial_green [Field R] : OBJECT_MATERIAL R :=
  { ambientColor := ⟨0.01, 0.5, 0.01⟩
    ambientStrength := 0.5
    diffuseColor := ⟨0.05, 0.5, 0.05⟩
    specularColor := ⟨0.05, 0.9, 0.05⟩
    shininess := 13.0
    tag := "marble_green" }

/-- The local `glassMaterial` of `DefineObjectMaterials`. -/
def glassMaterial [Field R] : OBJECT_MATERIAL R :=
  { ambientColor := ⟨0.05, 0.03, 0.05⟩
    ambientStrength := 0.5
    diffuseColor := ⟨0.05, 0.02, 0.02⟩
    specularColor := ⟨0.25, 0.15, 0.15⟩
    shininess := 12.0
    tag := "glass" }

/-- The method `SceneManager::DefineObjectMaterials`: the `push_back` calls in source order
(`woodMaterial` is pushed a second time where `woodTableMaterial` has just been filled in). -/
def DefineObjectMaterials [Field R] (s : SceneManager R) : SceneManager R :=
  { s with
    m_objectMaterials := s.m_objectMaterials ++
      [waxMaterial,
       placematMaterial,
       woodMaterial,
       woodMaterial_Gray,
       woodMaterial_Black,
       woodMaterial_Black_PencilCap,
       woodMaterial,
       notebookCoverMaterial,
       goldMaterial,
       marbleMaterial_blue,
       marbleMaterial_green,
       glassMaterial] }

/-- The five assignments in the body of the loop of `FindMaterial`: every field of `m` except
the tag is copied into `material`. -/
def copyMaterial (m material : OBJECT_MATERIAL R) : OBJECT_MATERIAL R :=
  { material with
    ambientColor := m.ambientColor
    ambientStrength := m.ambientStrength
    diffuseColor := m.diffuseColor
    specularColor := m.specularColor
    shininess := m.shininess }

/-! ## Transformations and shader uniforms -/

/-- The GLM functions `SceneManager.cpp` calls.  GLM is a third-party library and not among
the source files, so its functions are parameters of the embedding. -/
structure GLMTransform (R : Type) where
  radians : R → R
  scale : Vec3 R → Mat4 R
  rotate : R → Vec3 R → Mat4 R
  translate : Vec3 R → Mat4 R

/-- The method `SceneManager::SetTransformations`. -/
def SetTransformations [Field R] (G : GLMTransform R) (s : SceneManager R) (scaleXYZ : Vec3 R)
    (xRotationDegrees yRotationDegrees zRotationDegrees : R) (positionXYZ : Vec3 R) :
    SceneManager R :=
  let scale := G.scale scaleXYZ
  let rotationX := G.rotate (G.radians xRotationDegrees) ⟨1.0, 0.0, 0.0⟩
  let rotationY := G.rotate (G.radians yRotationDegrees) ⟨0.0, 1.0, 0.0⟩
  let rotationZ := G.rotate (G.radians zRotationDegrees) ⟨0.0, 0.0, 1.0⟩
  let translation := G.translate positionXYZ
  let modelView := translation * rotationX * rotationY * rotationZ * scale
  match s.m_pShaderManager with
  | some sh => { s with m_pShaderManager := some (sh.setValue "model" (.mat4Value modelView)) }
  | none => s

/-- The method `SceneManager::SetShaderColor`. -/
def SetShaderColor (s : SceneManager R) (redColorValue greenColorValue blueColorValue
    alphaValue : R) : SceneManager R :=
  let currentColor : Vec4 R := ⟨redColorValue, greenColorValue, blueColorValue, alphaValue⟩
  match s.m_pShaderManager with
  | some sh =>
    let sh₁ := sh.setValue "bUseTexture" (.intValue 0)
    let sh₂ := sh₁.setValue "objectColor" (.vec4Value currentColor)
    { s with m_pShaderManager := some sh₂ }
  | none => s

/-- The method `SceneManager::SetShaderTexture`. -/
def SetShaderTexture (s : SceneManager R) (textureTag : String) :
    Except Fault (SceneManager R) :=
  match s.m_pShaderManager with
  | some sh =>
    let sh₁ := sh.setValue "bUseTexture" (.intValue 1)
    match FindTextureSlot s textureTag with
    | .error f => .error f
    | .ok textureID =>
      let sh₂ := sh₁.setValue "objectTexture" (.sampler2DValue textureID)
      .ok { s with m_pShaderManager := some sh₂ }
  | none => .ok s

/-- The method `SceneManager::SetTextureUVScale`. -/
def SetTextureUVScale (s : SceneManager R) (u v : R) : SceneManager R :=
  match s.m_pShaderManager with
  | some sh => { s with m_pShaderManager := some (sh.setValue "UVscale" (.vec2Value ⟨u, v⟩)) }
  | none => s

/-- The method `SceneManager::SetShaderMaterial`.  `uninitialised` is the indeterminate
content of the local `OBJECT_MATERIAL material`; the shader manager is dereferenced without a
null test. -/
def SetShaderMaterial (uninitialised : OBJECT_MATERIAL R) (s : SceneManager R)
    (materialTag : String) : Except Fault (SceneManager R) :=
  if s.m_objectMaterials.length > 0 then
    match FindMaterial s materialTag uninitialised with
    | .error f => .error f
    | .ok (bReturn, material) =>
      if bReturn = true then
        match s.m_pShaderManager with
        | none => .error .nullPointer
        | some sh =>
          let sh₁ := sh.setValue "material.ambientColor" (.vec3Value material.ambientColor)
          let sh₂ := sh₁.setValue "material.ambientStrength" (.floatValue material.ambientStrength)
          let sh₃ := sh₂.setValue "material.diffuseColor" (.vec3Value material.diffuseColor)
          let sh₄ := sh₃.setValue "material.specularColor" (.vec3Value material.specularColor)
          let sh₅ := sh₄.setValue "material.shininess" (.floatValue material.shininess)
          .ok { s with m_pShaderManager := some sh₅ }
      else .ok s
  else .ok s

/-! ## Rendering the scene -/

/-- The draw methods of `ShapeMeshes` the scene uses. -/
inductive DrawMethod where
  | DrawPlaneMesh
  | DrawCylinderMesh
  | DrawConeMesh
  | DrawBoxMesh
  | DrawTorusMesh
  | DrawPyramid4Mesh
  | DrawHalfSphereMesh
  deriving DecidableEq, Repr

/-- One statement of a `Render...` method.  These methods are straight-line code: assignments
to the locals `scaleXYZ`, `xRotationDegrees`, `yRotationDegrees`, `zRotationDegrees` and
`positionXYZ`, and calls.  A call is recorded with the values its arguments have at that
point; `draw` is a call `m_basicMeshes->Draw...(args)` with the arguments written out in the
source. -/
inductive SceneCall (R : Type) where
  | SetTransformations (scaleXYZ : Vec3 R) (xRotationDegrees yRotationDegrees
      zRotationDegrees : R) (positionXYZ : Vec3 R)
  | SetShaderColor (redColorValue greenColorValue blueColorValue alphaValue : R)
  | SetShaderTexture (textureTag : String)
  | SetTextureUVScale (u v : R)
  | SetShaderMaterial (materialTag : String)
  | draw (method : DrawMethod) (args : List Bool)

/-- The effect of one recorded call on the scene manager.  A draw call changes neither the
members of the scene manager nor the shader uniforms. -/
def SceneCall.run [Field R] (G : GLMTransform R) (uninitialised : OBJECT_MATERIAL R) :
    SceneCall R → SceneManager R → Except Fault (SceneManager R)
  | .SetTransformations sc x y z pos, s => .ok (CS330.SetTransformations G s sc x y z pos)
  | .SetShaderColor r g b a, s => .ok (CS330.SetShaderColor s r g b a)
  | .SetShaderTexture tag, s => CS330.SetShaderTexture s tag
  | .SetTextureUVScale u v, s => .ok (CS330.SetTextureUVScale s u v)
  | .SetShaderMaterial tag, s => CS330.SetShaderMaterial uninitialised s tag
  | .draw _ _, s => .ok s

/-- The effect of a sequence of recorded calls. -/
def runCalls [Field R] (G : GLMTransform R) (uninitialised : OBJECT_MATERIAL R) :
    List (SceneCall R) → SceneManager R → Except Fault (SceneManager R)
  | [], s => .ok s
  | c :: cs, s =>
    match c.run G uninitialised s with
    | .error f => .error f
    | .ok s₁ => runCalls G uninitialised cs s₁

/-- The method `SceneManager::RenderPencil`: its calls in program order. -/
def RenderPencil [Field R] : List (SceneCall R) :=
  [ .SetTransformations ⟨0.125, 3.8, 0.125⟩ 0.0 43.0 90.0 ⟨-0.04477, 0.85, 2.63465⟩,
    .SetShaderTexture "wood",
    .SetTextureUVScale 0.5 3.0,
    .SetShaderMaterial "wood",
    .draw .DrawCylinderMesh [false, false, true],
    .SetTransformations ⟨0.125, 0.5, 0.125⟩ 0.0 43.0 90.0 ⟨-2.82505, 0.85, 5.22505⟩,
    .SetShaderTexture "wood_worn",
    .SetTextureUVScale 1.0 1.0,
    .SetShaderMaterial "wood",
    .draw .DrawConeMesh [false],
    .SetTransformations ⟨0.125, 0.2, 0.125⟩ 0.0 43.0 90.0 ⟨0.1026, 0.85, 2.4995⟩,
    .SetShaderTexture "wood",
    .SetTextureUVScale 3.0 3.0,
    .SetShaderMaterial "wood_gray",
    .draw .DrawCylinderMesh [false, false, true],
    .SetTransformations ⟨0.125, 0.5, 0.125⟩ 0.0 43.0 90.0 ⟨0.4695, 0.85, 2.156⟩,
    .SetShaderTexture "wood",
    .SetTextureUVScale 1.0 1.0,
    .SetShaderMaterial "wood_black",
    .draw .DrawCylinderMesh [false, false, true],
    .SetTransformations ⟨0.125, 0.1, 0.125⟩ 180.0 137.0 90.0 ⟨0.4695, 0.85, 2.156⟩,
    .SetShaderTexture "wood",
    .SetTextureUVScale 3.0 3.0,
    .SetShaderMaterial "wood_black_pencilcap",
    .draw .DrawHalfSphereMesh [] ]

/-- The method `SceneManager::RenderNotebook`: its calls in program order. -/
def RenderNotebook [Field R] : List (SceneCall R) :=
  [ .SetTransformations ⟨5.35, 0.40, 4.2⟩ 0.0 80.0 0.0 ⟨-1.5, 0.5, 3.3⟩,
    .SetShaderTexture "pages",
    .SetTextureUVScale 0.25 0.25,
    .SetShaderMaterial "notebookfront",
    .draw .DrawBoxMesh [],
    .SetTransformations ⟨4.25, 0.05, 5.5⟩ 0.0 (-10.0) 0.0 ⟨-1.5, 0.7, 3.3⟩,
    .SetShaderTexture "notebook",
    .SetTextureUVScale 1.0 1.0,
    .SetShaderMaterial "notebookfront",
    .draw .DrawBoxMesh [],
    .SetTransformations ⟨5.5, 0.05, 4.25⟩ 0.0 80.0 0.0 ⟨-1.5, 0.3, 3.3⟩,
    .SetShaderTexture "notebook",
    .SetTextureUVScale 1.0 1.0,
    .SetShaderMaterial "notebookfront",
    .draw .DrawBoxMesh [],
    .SetTransformations ⟨2.1, 1.0, 2.65⟩ 0.0 (-10.0) 0.0 ⟨-1.5, 0.75, 3.3⟩,
    .SetShaderTexture "d20",
    .SetTextureUVScale 1.0 1.0,
    .SetShaderMaterial "notebookfront",
    .draw .DrawPlaneMesh [],
    .SetTransformations ⟨5.5, 0.45, 0.095⟩ 0.0 80.0 0.0 ⟨-3.593, 0.499, 2.93⟩,
    .SetShaderTexture "notebook",
    .SetTextureUVScale 1.0 1.0,
    .SetShaderMaterial "notebookfront",
    .draw .DrawBoxMesh [] ]

/-- The method `SceneManager::RenderTable`: its calls in program order. -/
def RenderTable [Field R] : List (SceneCall R) :=
  [ .SetTransformations ⟨10.0, 1.0, 5.0⟩ 0.0 0.0 0.0 ⟨0.8, 0.26, 2.0⟩,
    .SetShaderTexture "placemat",
    .SetTextureUVScale 1.0 1.0,
    .SetShaderMaterial "placemat",
    .draw .DrawPlaneMesh [],
    .SetTransformations ⟨20.0, 0.25, 20.0⟩ 0.0 0.0 0.0 ⟨0.0, 0.0, 0.0⟩,
    .SetShaderTexture "wood",
    .SetTextureUVScale 3.0 3.0,
    .SetShaderMaterial "wood",
    .draw .DrawCylinderMesh [] ]

/-- The method `SceneManager::RenderCandle`: its calls in program order. -/
def RenderCandle [Field R] : List (SceneCall R) :=
  [ .SetTransformations ⟨1.2, 2.6, 1.2⟩ 180.0 0.0 0.0 ⟨2.493, 3.2, 1.38⟩,
    .SetShaderTexture "wax",
    .SetTextureUVScale 1.0 1.0,
    .SetShaderMaterial "wax",
    .draw .DrawCylinderMesh [],
    .SetTransformations ⟨1.21, 2.6, 1.21⟩ 180.0 0.0 0.0 ⟨2.493, 3.4, 1.38⟩,
    .SetShaderTexture "glass",
    .SetTextureUVScale 1.0 1.0,
    .SetShaderMaterial "glass",
    .draw .DrawCylinderMesh [false, false, true],
    .SetTransformations ⟨1.24, 1.24, 0.5⟩ 90.0 0.0 190.0 ⟨2.493, 3.41, 1.38⟩,
    .SetShaderTexture "glass",
    .SetTextureUVScale 1.0 1.0,
    .SetShaderMaterial "glass",
    .draw .DrawTorusMesh [],
    .SetTransformations ⟨1.3, 3.1, 1.3⟩ 180.0 0.0 0.0 ⟨2.493, 3.4, 1.38⟩,
    .SetShaderTexture "glass",
    .SetTextureUVScale 1.0 1.0,
    .SetShaderMaterial "glass",
    .draw .DrawCylinderMesh [true, false, true],
    .SetTransformations ⟨0.05, 0.6, 0.05⟩ (-25.0) 0.0 (-20.0) ⟨2.493, 3.15, 1.38⟩,
    .SetShaderColor 0.83 0.79 0.705 1.0,
    .SetShaderMaterial "wax",
    .draw .DrawCylinderMesh [] ]

/-- The method `SceneManager::RenderDEight`: its calls in program order. -/
def RenderDEight [Field R] : List (SceneCall R) :=
  [ .SetTransformations ⟨0.35, 0.2, 0.35⟩ (-50.0) 0.0 0.0 ⟨-2.593, 0.954, 2.02725⟩,
    .SetShaderTexture "marble",
    .SetTextureUVScale 1.0 1.0,
    .SetShaderMaterial "marble_blue",
    .draw .DrawPyramid4Mesh [],
    .SetTransformations ⟨0.35, 0.2, 0.35⟩ 130.0 0.0 0.0 ⟨-2.593, 0.825, 2.18⟩,
    .draw .DrawPyramid4Mesh [] ]

/-- The method `SceneManager::RenderDSix`: its calls in program order. -/
def RenderDSix [Field R] : List (SceneCall R) :=
  [ .SetTransformations ⟨0.25, 0.25, 0.25⟩ 0.0 15.0 0.0 ⟨-1.493, 0.88, 1.38⟩,
    .SetShaderTexture "marble",
    .SetTextureUVScale 3.1 2.9,
    .SetShaderMaterial "marble_green",
    .draw .DrawBoxMesh [] ]

/-- The method `SceneManager::RenderCandleLid`: its calls in program order. -/
def RenderCandleLid [Field R] : List (SceneCall R) :=
  [ .SetTransformations ⟨1.3, 0.1, 1.3⟩ 180.0 65.0 35.0 ⟨4.15, 1.15, 3.18⟩,
    .SetShaderTexture "metal",
    .SetTextureUVScale 1.0 1.0,
    .SetShaderMaterial "metal_gold",
    .draw .DrawCylinderMesh [],
    .SetTransformations ⟨1.2, 0.2, 1.2⟩ 180.0 65.0 35.0 ⟨4.15, 1.15, 3.18⟩,
    .SetShaderTexture "metal",
    .SetTextureUVScale 1.0 1.0,
    .SetShaderMaterial "metal_gold",
    .draw .DrawCylinderMesh [false, false, true],
    .SetTransformations ⟨1.2, 0.2, 1.2⟩ 180.0 65.0 35.0 ⟨4.15, 1.15, 3.18⟩,
    .SetShaderTexture "metal",
    .SetTextureUVScale 1.0 1.0,
    .SetShaderMaterial "metal_gold",
    .draw .DrawCylinderMesh [false, false, true] ]

/-- The method `SceneManager::RenderScene`: the calls of the seven objects in program order. -/
def RenderScene [Field R] : List (SceneCall R) :=
  RenderTable ++ RenderPencil ++ RenderNotebook ++
  RenderCandle ++ RenderDEight ++ RenderDSix ++ RenderCandleLid

/-! ## Reading a call sequence -/

/-- Is the call a draw call? -/
def SceneCall.isDraw : SceneCall R → Bool
  | .draw _ _ => true
  | _ => false

/-- Is the call a `SetTransformations` call? -/
def SceneCall.isSetTransformations : SceneCall R → Bool
  | .SetTransformations _ _ _ _ _ => true
  | _ => false

/-- Is the call a `SetShaderTexture` or a `SetShaderColor` call? -/
def SceneCall.isTextureOrColor : SceneCall R → Bool
  | .SetShaderTexture _ => true
  | .SetShaderColor _ _ _ _ => true
  | _ => false

/-- Is the call a `SetShaderMaterial` call? -/
def SceneCall.isSetShaderMaterial : SceneCall R → Bool
  | .SetShaderMaterial _ => true
  | _ => false

/-- For every draw call of a sequence, in order, the calls made after the previous draw call
(or after the start) and before this one; `pending` holds the calls seen since the last
draw. -/
def callsBeforeEachDraw : List (SceneCall R) → List (SceneCall R) → List (List (SceneCall R))
  | _, [] => []
  | pending, c :: cs =>
    if c.isDraw then pending :: callsBeforeEachDraw [] cs
    else callsBeforeEachDraw (pending ++ [c]) cs

/-- A draw is prepared when the calls since the previous draw contain a `SetTransformations`,
a `SetShaderTexture` or `SetShaderColor`, and a `SetShaderMaterial`. -/
def preparesDraw (calls : List (SceneCall R)) : Bool :=
  calls.any SceneCall.isSetTransformations && calls.any SceneCall.isTextureOrColor &&
    calls.any SceneCall.isSetShaderMaterial

/-- The calls made before the `n`-th draw call (counted from zero) of a sequence. -/
def callsUpToDraw : Nat → List (SceneCall R) → List (SceneCall R)
  | _, [] => []
  | n, c :: cs =>
    if c.isDraw then
      match n with
      | 0 => []
      | k + 1 => c :: callsUpToDraw k cs
    else c :: callsUpToDraw n cs

/-- The last call satisfying `p` made before the `n`-th draw call: the call whose uniforms are
in force when that mesh is drawn. -/
def inForceAtDraw (p : SceneCall R → Bool) (n : Nat) (calls : List (SceneCall R)) :
    Option (SceneCall R) :=
  (callsUpToDraw n calls).reverse.find? p

/-! ## View manager -/

/-- The constant `WINDOW_WIDTH`. -/
def WINDOW_WIDTH : Nat := 1000

/-- The constant `WINDOW_HEIGHT`. -/
def WINDOW_HEIGHT : Nat := 800

/-- The enumeration `Camera_Movement`, as far as the source names its values. -/
inductive Camera_Movement where
  | FORWARD
  | BACKWARD
  | LEFT
  | RIGHT
  | UP
  | DOWN
  deriving DecidableEq, Repr

/-- A `Camera` object.  The class is not among the source files; `Position`, `Front`, `Up` and
`Zoom` are the members `ViewManager.cpp` reads and writes, and `rest` stands for every other
member. -/
structure Camera (R Ω : Type) where
  Position : Vec3 R
  Front : Vec3 R
  Up : Vec3 R
  Zoom : R
  rest : Ω

/-- The methods of `Camera` that `ProcessKeyboardEvents` and `PrepareSceneView` call.  The
class is not among the source files, so the methods are parameters of the embedding. -/
structure CameraMethods (R Ω : Type) where
  ProcessKeyboard : Camera R Ω → Camera_Movement → R → Camera R Ω
  GetViewMatrix : Camera R Ω → Mat4 R

/-- The GLM functions `ViewManager.cpp` calls; they are parameters like those of
`GLMTransform`. -/
structure GLMProjection (R : Type) where
  radians : R → R
  perspective : R → R → R → R → Mat4 R
  ortho : R → R → R → R → R → R → Mat4 R

/-- The keys `ProcessKeyboardEvents` polls. -/
inductive Key where
  | ESCAPE
  | W
  | S
  | A
  | D
  | Q
  | E
  | O
  | P
  deriving DecidableEq, Repr

/-- The members of `ViewManager` and the variables of the anonymous namespace of
`ViewManager.cpp`.  `windowShouldClose` is the close flag of the window `m_pWindow`. -/
structure ViewManager (R Ω : Type) where
  m_pShaderManager : Option (ShaderManager R)
  windowShouldClose : Bool
  g_pCamera : Option (Camera R Ω)
  gLastX : R
  gLastY : R
  gFirstMouse : Bool
  gDeltaTime : R
  gLastFrame : R
  bOrthographicProjection : Bool
  gMoveSpeedMultiplier : R

variable {Ω : Type}

/-- The initialisers of the anonymous namespace, before any `ViewManager` is constructed. -/
def staticInitialisation [Field R] : ViewManager R Ω :=
  { m_pShaderManager := none
    windowShouldClose := false
    g_pCamera := none
    gLastX := (WINDOW_WIDTH : R) / 2.0
    gLastY := (WINDOW_HEIGHT : R) / 2.0
    gFirstMouse := true
    gDeltaTime := 0.0
    gLastFrame := 0.0
    bOrthographicProjection := false
    gMoveSpeedMultiplier := 1.0 }

/-- The constructor `ViewManager::ViewManager`; `newCamera` is the object `new Camera()`
yields. -/
def ViewManager.construct [Field R] (s : ViewManager R Ω)
    (pShaderManager : Option (ShaderManager R)) (newCamera : Camera R Ω) : ViewManager R Ω :=
  { s with
    m_pShaderManager := pShaderManager
    g_pCamera := some
      { newCamera with
        Position := ⟨0.0, 5.0, 12.0⟩
        Front := ⟨0.0, -0.5, -2.0⟩
        Up := ⟨0.0, 1.0, 0.0⟩
        Zoom := 80 } }

/-- The function `scroll_callback`. -/
def scroll_callback [LinearOrderedField R] (s : ViewManager R Ω) (_xOffSet yOffset : R) :
    ViewManager R Ω :=
  let m₀ := s.gMoveSpeedMultiplier + yOffset
  let m₁ := if m₀ < 0.5 then 0.5 else m₀
  let m₂ := if m₁ > 5.0 then 5.0 else m₁
  { s with gMoveSpeedMultiplier := m₂ }

/-- A sequence of scroll events `(xOffset, yOffset)`, delivered in order. -/
def scrollEvents [LinearOrderedField R] (s : ViewManager R Ω) (events : List (R × R)) :
    ViewManager R Ω :=
  events.foldl (fun st e => scroll_callback st e.1 e.2) s

/-- The function `clamp(v, lo, hi)` in the words of the specification: `lo` below `lo`, `hi`
above `hi`, and `v` itself in between. -/
def clamp [LinearOrderedField R] (v lo hi : R) : R :=
  if v < lo then lo else if hi < v then hi else v

/-- The method `ViewManager::ProcessKeyboardEvents`; `glfwGetKey k` tells whether
`glfwGetKey(m_pWindow, k) == GLFW_PRESS`. -/
def ProcessKeyboardEvents [Field R] (C : CameraMethods R Ω) (glfwGetKey : Key → Bool)
    (s : ViewManager R Ω) : ViewManager R Ω :=
  let gCameraSpeed := s.gMoveSpeedMultiplier * s.gDeltaTime
  let s₁ := if glfwGetKey .ESCAPE then { s with windowShouldClose := true } else s
  match s₁.g_pCamera with
  | none => s₁
  | some c₀ =>
    let c₁ := if glfwGetKey .W then C.ProcessKeyboard c₀ .FORWARD gCameraSpeed else c₀
    let c₂ := if glfwGetKey .S then C.ProcessKeyboard c₁ .BACKWARD gCameraSpeed else c₁
    let c₃ := if glfwGetKey .A then C.ProcessKeyboard c₂ .LEFT gCameraSpeed else c₂
    let c₄ := if glfwGetKey .D then C.ProcessKeyboard c₃ .RIGHT gCameraSpeed else c₃
    let c₅ := if glfwGetKey .Q then C.ProcessKeyboard c₄ .UP gCameraSpeed else c₄
    let c₆ := if glfwGetKey .E then C.ProcessKeyboard c₅ .DOWN gCameraSpeed else c₅
    let (flag₁, c₇) :=
      if glfwGetKey .O then
        (true, { c₆ with Position := ⟨0.0, 4.0, 10.0⟩, Up := ⟨0.0, 1.0, 0.0⟩,
                         Front := ⟨0.0, 0.0, -1.0⟩ })
      else (s₁.bOrthographicProjection, c₆)
    let (flag₂, c₈) :=
      if glfwGetKey .P then
        (false, { c₇ with Position := ⟨0.0, 5.5, 8.0⟩, Front := ⟨0.0, -0.5, -2.0⟩,
                          Up := ⟨0.0, 1.0, 0.0⟩, Zoom := 80 })
      else (flag₁, c₇)
    { s₁ with bOrthographicProjection := flag₂, g_pCamera := some c₈ }

/-- The projection matrix `PrepareSceneView` computes from the flag and the zoom. -/
def sceneProjection [Field R] (P : GLMProjection R) (bOrthographicProjection : Bool)
    (Zoom : R) : Mat4 R :=
  if bOrthographicProjection = false then
    P.perspective (P.radians Zoom) ((WINDOW_WIDTH : R) / (WINDOW_HEIGHT : R)) 0.1 100.0
  else if WINDOW_WIDTH > WINDOW_HEIGHT then
    let scale : R := (WINDOW_HEIGHT : R) / (WINDOW_WIDTH : R)
    P.ortho (-5.0) 5.0 (-5.0 * scale) (5.0 * scale) 0.1 100.0
  else if WINDOW_WIDTH < WINDOW_HEIGHT then
    let scale : R := (WINDOW_WIDTH : R) / (WINDOW_HEIGHT : R)
    P.ortho (-5.0 * scale) (5.0 * scale) (-5.0) 5.0 0.1 100.0
  else P.ortho (-5.0) 5.0 (-5.0) 5.0 0.1 100.0

/-- The method `ViewManager::PrepareSceneView`; `glfwGetTime` is the clock reading.  The camera
is dereferenced without a null test. -/
def PrepareSceneView [Field R] (C : CameraMethods R Ω) (P : GLMProjection R)
    (glfwGetKey : Key → Bool) (glfwGetTime : R) (s : ViewManager R Ω) :
    Except Fault (ViewManager R Ω) :=
  let currentFrame := glfwGetTime
  let s₁ := { s with gDeltaTime := currentFrame - s.gLastFrame, gLastFrame := currentFrame }
  let s₂ := ProcessKeyboardEvents C glfwGetKey s₁
  match s₂.g_pCamera with
  | none => .error .nullPointer
  | some camera =>
    let view := C.GetViewMatrix camera
    let projection := sceneProjection P s₂.bOrthographicProjection camera.Zoom
    match s₂.m_pShaderManager with
    | some sh =>
      let sh₁ := sh.setValue "view" (.mat4Value view)
      let sh₂ := sh₁.setValue "projection" (.mat4Value projection)
      let sh₃ := sh₂.setValue "viewPosition" (.vec3Value camera.Position)
      .ok { s₂ with m_pShaderManager := some sh₃ }
    | none => .ok s₂

/-- The state at the point where `PrepareSceneView` calls `ProcessKeyboardEvents`: the frame
timing has been updated from the clock reading. -/
def frameTimed [Field R] (glfwGetTime : R) (s : ViewManager R Ω) : ViewManager R Ω :=
  { s with gDeltaTime := glfwGetTime - s.gLastFrame, gLastFrame := glfwGetTime }

/-- The state after the keyboard processing of the frame that `PrepareSceneView` runs. -/
def afterKeyboard [Field R] (C : CameraMethods R Ω) (glfwGetKey : Key → Bool) (glfwGetTime : R)
    (s : ViewManager R Ω) : ViewManager R Ω :=
  ProcessKeyboardEvents C glfwGetKey (frameTimed glfwGetTime s)

/-- The uniform writes a call has added to the shader state: the part of the log of `after`
beyond the log of `before`. -/
def newUniforms (before after : ViewManager R Ω) : List (String × UniformValue R) :=
  match before.m_pShaderManager, after.m_pShaderManager with
  | some a, some b => b.uniforms.drop a.uniforms.length
  | _, _ => []

/-- The state `s` with the camera pointer set to `cam` and the shader manager pointer set to
`sh` (`none` for a null pointer). -/
def ViewManager.attach (s : ViewManager R Ω) (cam : Camera R Ω)
    (sh : Option (ShaderManager R)) : ViewManager R Ω :=
  { s with g_pCamera := some cam, m_pShaderManager := sh }

/-- The state `s` with the log of its shader manager replaced by `uniforms`. -/
def ViewManager.withUniforms (s : ViewManager R Ω) (uniforms : List (String × UniformValue R)) :
    ViewManager R Ω :=
  { s with m_pShaderManager := some ⟨uniforms⟩ }

/-! ## Agreement of view states -/

/-- The pose of a camera: `Position`, `Front`, `Up` and `Zoom`. -/
def Camera.pose (c : Camera R Ω) : Vec3 R × Vec3 R × Vec3 R × R :=
  (c.Position, c.Front, c.Up, c.Zoom)

/-- Two view states agree on the camera pose and on `gMoveSpeedMultiplier`. -/
def agreeOnPoseAndSpeed (s₁ s₂ : ViewManager R Ω) : Prop :=
  s₁.g_pCamera.map Camera.pose = s₂.g_pCamera.map Camera.pose ∧
  s₁.gMoveSpeedMultiplier = s₂.gMoveSpeedMultiplier

/-- Two view states agree on the camera object, on `gMoveSpeedMultiplier`, on `gLastFrame`, on
`bOrthographicProjection` and on whether a shader manager is attached. -/
def agreeOnView (s₁ s₂ : ViewManager R Ω) : Prop :=
  s₁.g_pCamera = s₂.g_pCamera ∧
  s₁.gMoveSpeedMultiplier = s₂.gMoveSpeedMultiplier ∧
  s₁.gLastFrame = s₂.gLastFrame ∧
  s₁.bOrthographicProjection = s₂.bOrthographicProjection ∧
  s₁.m_pShaderManager.isSome = s₂.m_pShaderManager.isSome

/-! ## GLM reference formulas -/

/-- The function `glm::radians`, with the constant `pi` as a parameter. -/
def glmRadians [Field R] (pi : R) (degrees : R) : R :=
  degrees * (pi / 180)

/-- The function `glm::perspective` of the GLM library (right-handed, depth from -1 to 1), with
the tangent as a parameter.  Rows and columns are those of the mathematical matrix. -/
def glmPerspective [Field R] (tan : R → R) (fovy aspect zNear zFar : R) : Mat4 R :=
  let tanHalfFovy := tan (fovy / 2)
  !![1 / (aspect * tanHalfFovy), 0, 0, 0;
     0, 1 / tanHalfFovy, 0, 0;
     0, 0, -(zFar + zNear) / (zFar - zNear), -(2 * zFar * zNear) / (zFar - zNear);
     0, 0, -1, 0]

/-- The function `glm::ortho` of the GLM library (right-handed, depth from -1 to 1). -/
def glmOrtho [Field R] (left right bottom top zNear zFar : R) : Mat4 R :=
  !![2 / (right - left), 0, 0, -(right + left) / (right - left);
     0, 2 / (top - bottom), 0, -(top + bottom) / (top - bottom);
     0, 0, -2 / (zFar - zNear), -(zFar + zNear) / (zFar - zNear);
     0, 0, 0, 1]

/-- The projection functions of GLM by their reference formulas; the tangent and `pi` are
parameters. -/
def glmProjection [Field R] (tan : R → R) (pi : R) : GLMProjection R :=
  { radians := glmRadians pi
    perspective := glmPerspective tan
    ortho := glmOrtho }

/-! ## Sample states -/

/-- A scene manager with no shader, no texture and no material. -/
def emptyScene : SceneManager ℚ :=
  { m_pShaderManager := none
    m_loadedTextures := 0
    m_textureIDs := fun _ => ⟨0, ""⟩
    m_objectMaterials := []
    gl := ⟨[], 0, fun _ => 0⟩ }

/-- A registry of three textures in which the tag `"wax"` occurs twice. -/
def threeTextures : SceneManager ℚ :=
  { emptyScene with
    m_loadedTextures := 3
    m_textureIDs := fun j =>
      if j.val = 0 then ⟨7, "wood"⟩ else if j.val = 1 then ⟨9, "wax"⟩ else ⟨11, "wax"⟩ }

/-- A file system in which every file is a 64 by 64 RGB image. -/
def everyFileRGB : String → Option Image := fun _ => some ⟨64, 64, 3⟩

/-- A camera in the pose the key `O` selects. -/
def frontCamera : Camera ℚ Unit :=
  { Position := ⟨0, 4, 10⟩, Front := ⟨0, 0, -1⟩, Up := ⟨0, 1, 0⟩, Zoom := 80, rest := () }

/-- A view state in orthographic mode, with a shader manager that has seen no write. -/
def orthographicView : ViewManager ℚ Unit :=
  { (staticInitialisation : ViewManager ℚ Unit) with
    m_pShaderManager := some ⟨[]⟩
    g_pCamera := some frontCamera
    bOrthographicProjection := true }

/-- The same view state in perspective mode. -/
def perspectiveView : ViewManager ℚ Unit :=
  { orthographicView with bOrthographicProjection := false }

/-- No key is pressed. -/
def noKeys : Key → Bool := fun _ => false

/-- The key `W` alone is pressed. -/
def onlyW : Key → Bool := fun k => decide (k = Key.W)

/-- A sample implementation of the camera methods, for use where a concrete camera is needed:
a key moves `Position` by the given step along `Front` (forward, backward) or `Up` (up, down),
and the view matrix is the translation by the negated position. -/
def dollyCamera : CameraMethods ℚ Unit :=
  { ProcessKeyboard := fun c direction step =>
      match direction with
      | .FORWARD => { c with Position := ⟨c.Position.x + step * c.Front.x,
          c.Position.y + step * c.Front.y, c.Position.z + step * c.Front.z⟩ }
      | .BACKWARD => { c with Position := ⟨c.Position.x - step * c.Front.x,
          c.Position.y - step * c.Front.y, c.Position.z - step * c.Front.z⟩ }
      | .UP => { c with Position := ⟨c.Position.x + step * c.Up.x,
          c.Position.y + step * c.Up.y, c.Position.z + step * c.Up.z⟩ }
      | .DOWN => { c with Position := ⟨c.Position.x - step * c.Up.x,
          c.Position.y - step * c.Up.y, c.Position.z - step * c.Up.z⟩ }
      | _ => c
    GetViewMatrix := fun c =>
      !![1, 0, 0, -c.Position.x; 0, 1, 0, -c.Position.y; 0, 0, 1, -c.Position.z; 0, 0, 0, 1] }

/-- The reference projection functions with rational stand-ins for the tangent (its first-order
approximation) and for `pi`. -/
def rationalProjection : GLMProjection ℚ :=
  glmProjection (fun x => x) (22 / 7)

/-- The state `perspectiveView` after unrelated activity: the mouse has moved, the window has
been asked to close, the previous frame took three seconds, and the shader has seen a write. -/
def busyPerspectiveView : ViewManager ℚ Unit :=
  { perspectiveView with
    m_pShaderManager := some ⟨[("UVscale", .vec2Value ⟨1, 1⟩)]⟩
    windowShouldClose := true
    gLastX := 7
    gLastY := 9
    gFirstMouse := false
    gDeltaTime := 3 }

/-- The state `perspectiveView` with the previous frame stamped at one second. -/
def laterPerspectiveView : ViewManager ℚ Unit :=
  { perspectiveView with gLastFrame := 1 }

/-- Seventeen registration requests for a loadable file. -/
def seventeenRequests : List TextureRequest :=
  (List.range 17).map fun i => ⟨"./textures/wax.jpg", "wax", i + 1⟩

/-- A file system in which every file is a 64 by 64 image with a single channel. -/
def everyFileGray : String → Option Image := fun _ => some ⟨64, 64, 1⟩

/-- A file system in which no file can be loaded. -/
def noFileLoads : String → Option Image := fun _ => none

/-- The registry `threeTextures` with a shader manager that has seen no write. -/
def threeTexturesWithShader : SceneManager ℚ :=
  { threeTextures with m_pShaderManager := some ⟨[]⟩ }

/-! # Theorems -/

/-! ## Texture lookup: loop lemmas -/

theorem readTexture_ok (s : SceneManager R) {i : Nat} (h : i < TEXTURE_SLOTS) :
    s.readTexture i = .ok (s.m_textureIDs ⟨i, h⟩) := by
  simp [SceneManager.readTexture, h]

theorem tagAt_eq (s : SceneManager R) {i : Nat} (h : i < TEXTURE_SLOTS) :
    s.tagAt i = (s.m_textureIDs ⟨i, h⟩).tag := by
  simp [SceneManager.tagAt, h]

theorem idAt_eq (s : SceneManager R) {i : Nat} (h : i < TEXTURE_SLOTS) :
    s.idAt i = (s.m_textureIDs ⟨i, h⟩).ID := by
  simp [SceneManager.idAt, h]

/-- Once `bFound` is set the loop of `FindTextureSlot` stops at the next test. -/
theorem FindTextureSlot_loop_found (s : SceneManager R) (tag : String) (fuel index : Nat)
    (slot : Int) : FindTextureSlot.loop s tag (fuel + 1) index slot true = .ok slot := by
  simp [FindTextureSlot.loop]

/-- Once `bFound` is set the loop of `FindTextureID` stops at the next test. -/
theorem FindTextureID_loop_found (s : SceneManager R) (tag : String) (fuel index : Nat)
    (id : Int) : FindTextureID.loop s tag (fuel + 1) index id true = .ok id := by
  simp [FindTextureID.loop]

/-- The loop of `FindTextureSlot`, started at `index` with nothing found yet, returns the
first slot at or after `index` holding `tag`, or the initial value when there is none. -/
theorem FindTextureSlot_loop_spec (s : SceneManager R) (tag : String)
    (hcap : s.m_loadedTextures ≤ TEXTURE_SLOTS) :
    ∀ (d index fuel : Nat) (slot : Int), index + d = s.m_loadedTextures → d + 1 ≤ fuel →
      ∃ r, FindTextureSlot.loop s tag fuel index slot false = .ok r ∧
        ((r = slot ∧ ∀ i, index ≤ i → i < s.m_loadedTextures → s.tagAt i ≠ tag) ∨
         (∃ k : Nat, r = (k : Int) ∧ index ≤ k ∧ k < s.m_loadedTextures ∧ s.tagAt k = tag ∧
            ∀ j, index ≤ j → j < k → s.tagAt j ≠ tag)) := by
  intro d
  induction d with
  | zero =>
    intro index fuel slot hd hf
    obtain ⟨f, rfl⟩ : ∃ f, fuel = f + 1 := ⟨fuel - 1, by omega⟩
    refine ⟨slot, ?_, Or.inl ⟨rfl, ?_⟩⟩
    · have : ¬ index < s.m_loadedTextures := by omega
      simp [FindTextureSlot.loop, this]
    · intro i h1 h2; omega
  | succ d ih =>
    intro index fuel slot hd hf
    obtain ⟨f, rfl⟩ : ∃ f, fuel = f + 1 := ⟨fuel - 1, by omega⟩
    have hlt : index < s.m_loadedTextures := by omega
    have hin : index < TEXTURE_SLOTS := by omega
    by_cases ht : (s.m_textureIDs ⟨index, hin⟩).tag = tag
    · obtain ⟨g, rfl⟩ : ∃ g, f = g + 1 := ⟨f - 1, by omega⟩
      refine ⟨(index : Int), ?_, Or.inr ⟨index, rfl, le_refl _, hlt, ?_, ?_⟩⟩
      · rw [FindTextureSlot.loop]
        simp only [hlt, true_and, if_true, readTexture_ok s hin, ht]
        exact FindTextureSlot_loop_found s tag g index _
      · rw [tagAt_eq s hin]; exact ht
      · intro j h1 h2; omega
    · obtain ⟨r, hr, hspec⟩ := ih (index + 1) f slot (by omega) (by omega)
      refine ⟨r, ?_, ?_⟩
      · rw [FindTextureSlot.loop]
        simp only [hlt, true_and, if_true, readTexture_ok s hin, ht, if_false]
        exact hr
      · have hne : s.tagAt index ≠ tag := by rw [tagAt_eq s hin]; exact ht
        rcases hspec with ⟨h1, h2⟩ | ⟨k, h1, h2, h3, h4, h5⟩
        · refine Or.inl ⟨h1, fun i hi hi2 => ?_⟩
          rcases Nat.eq_or_lt_of_le hi with h | h
          · subst h; exact hne
          · exact h2 i h hi2
        · refine Or.inr ⟨k, h1, by omega, h3, h4, fun j hj hj2 => ?_⟩
          rcases Nat.eq_or_lt_of_le hj with h | h
          · subst h; exact hne
          · exact h5 j h hj2

/-- The loop of `FindTextureID`, started at `index` with nothing found yet, returns the ID of
the first slot at or after `index` holding `tag`, or the initial value when there is none. -/
theorem FindTextureID_loop_spec (s : SceneManager R) (tag : String)
    (hcap : s.m_loadedTextures ≤ TEXTURE_SLOTS) :
    ∀ (d index fuel : Nat) (id : Int), index + d = s.m_loadedTextures → d + 1 ≤ fuel →
      ∃ r, FindTextureID.loop s tag fuel index id false = .ok r ∧
        ((r = id ∧ ∀ i, index ≤ i → i < s.m_loadedTextures → s.tagAt i ≠ tag) ∨
         (∃ k : Nat, r = GLuintToInt (s.idAt k) ∧ index ≤ k ∧ k < s.m_loadedTextures ∧
            s.tagAt k = tag ∧ ∀ j, index ≤ j → j < k → s.tagAt j ≠ tag)) := by
  intro d
  induction d with
  | zero =>
    intro index fuel id hd hf
    obtain ⟨f, rfl⟩ : ∃ f, fuel = f + 1 := ⟨fuel - 1, by omega⟩
    refine ⟨id, ?_, Or.inl ⟨rfl, ?_⟩⟩
    · have : ¬ index < s.m_loadedTextures := by omega
      simp [FindTextureID.loop, this]
    · intro i h1 h2; omega
  | succ d ih =>
    intro index fuel id hd hf
    obtain ⟨f, rfl⟩ : ∃ f, fuel = f + 1 := ⟨fuel - 1, by omega⟩
    have hlt : index < s.m_loadedTextures := by omega
    have hin : index < TEXTURE_SLOTS := by omega
    by_cases ht : (s.m_textureIDs ⟨index, hin⟩).tag = tag
    · obtain ⟨g, rfl⟩ : ∃ g, f = g + 1 := ⟨f - 1, by omega⟩
      refine ⟨GLuintToInt (s.idAt index), ?_, Or.inr ⟨index, rfl, le_refl _, hlt, ?_, ?_⟩⟩
      · rw [FindTextureID.loop]
        simp only [hlt, true_and, if_true, readTexture_ok s hin, ht, idAt_eq s hin]
        exact FindTextureID_loop_found s tag g index _
      · rw [tagAt_eq s hin]; exact ht
      · intro j h1 h2; omega
    · obtain ⟨r, hr, hspec⟩ := ih (index + 1) f id (by omega) (by omega)
      refine ⟨r, ?_, ?_⟩
      · rw [FindTextureID.loop]
        simp only [hlt, true_and, if_true, readTexture_ok s hin, ht, if_false]
        exact hr
      · have hne : s.tagAt index ≠ tag := by rw [tagAt_eq s hin]; exact ht
        rcases hspec with ⟨h1, h2⟩ | ⟨k, h1, h2, h3, h4, h5⟩
        · refine Or.inl ⟨h1, fun i hi hi2 => ?_⟩
          rcases Nat.eq_or_lt_of_le hi with h | h
          · subst h; exact hne
          · exact h2 i h hi2
        · refine Or.inr ⟨k, h1, by omega, h3, h4, fun j hj hj2 => ?_⟩
          rcases Nat.eq_or_lt_of_le hj with h | h
          · subst h; exact hne
          · exact h5 j h hj2

/-- What `FindTextureSlot` returns on a registry that fits the table. -/
theorem FindTextureSlot_cases (s : SceneManager R) (tag : String)
    (hcap : s.m_loadedTextures ≤ TEXTURE_SLOTS) :
    (FindTextureSlot s tag = .ok (-1) ∧ ∀ i, i < s.m_loadedTextures → s.tagAt i ≠ tag) ∨
    (∃ k : Nat, FindTextureSlot s tag = .ok (k : Int) ∧ k < s.m_loadedTextures ∧
        s.tagAt k = tag ∧ ∀ j, j < k → s.tagAt j ≠ tag) := by
  obtain ⟨r, hr, hspec⟩ :=
    FindTextureSlot_loop_spec s tag hcap s.m_loadedTextures 0 (s.m_loadedTextures + 1) (-1)
      (by omega) (by omega)
  rcases hspec with ⟨h1, h2⟩ | ⟨k, h1, _, h3, h4, h5⟩
  · left
    exact ⟨by rw [FindTextureSlot, hr, h1], fun i hi => h2 i (Nat.zero_le _) hi⟩
  · right
    exact ⟨k, by rw [FindTextureSlot, hr, h1], h3, h4, fun j hj => h5 j (Nat.zero_le _) hj⟩

/-- What `FindTextureID` returns on a registry that fits the table. -/
theorem FindTextureID_cases (s : SceneManager R) (tag : String)
    (hcap : s.m_loadedTextures ≤ TEXTURE_SLOTS) :
    (FindTextureID s tag = .ok (-1) ∧ ∀ i, i < s.m_loadedTextures → s.tagAt i ≠ tag) ∨
    (∃ k : Nat, FindTextureID s tag = .ok (GLuintToInt (s.idAt k)) ∧ k < s.m_loadedTextures ∧
        s.tagAt k = tag ∧ ∀ j, j < k → s.tagAt j ≠ tag) := by
  obtain ⟨r, hr, hspec⟩ :=
    FindTextureID_loop_spec s tag hcap s.m_loadedTextures 0 (s.m_loadedTextures + 1) (-1)
      (by omega) (by omega)
  rcases hspec with ⟨h1, h2⟩ | ⟨k, h1, _, h3, h4, h5⟩
  · left
    exact ⟨by rw [FindTextureID, hr, h1], fun i hi => h2 i (Nat.zero_le _) hi⟩
  · right
    exact ⟨k, by rw [FindTextureID, hr, h1], h3, h4, fun j hj => h5 j (Nat.zero_le _) hj⟩

/-! ## C1: `FindTextureSlot` -/

/-- C1. On every registry that lies inside the texture table, `FindTextureSlot tag` returns a
value `r`; `r = -1` exactly when none of the first `m_loadedTextures` entries carries `tag`;
otherwise `r` is the smallest index below `m_loadedTextures` whose entry carries `tag`; so `r`
is `-1` or an index in `[0, m_loadedTextures)`. -/
theorem FindTextureSlot_first_match (s : SceneManager R) (tag : String)
    (hcap : s.m_loadedTextures ≤ TEXTURE_SLOTS) :
    ∃ r : Int, FindTextureSlot s tag = .ok r ∧
      (r = -1 ↔ ∀ i, i < s.m_loadedTextures → s.tagAt i ≠ tag) ∧
      (r ≠ -1 → ∃ k : Nat, r = (k : Int) ∧ k < s.m_loadedTextures ∧ s.tagAt k = tag ∧
          ∀ j, j < k → s.tagAt j ≠ tag) ∧
      (r = -1 ∨ (0 ≤ r ∧ r < (s.m_loadedTextures : Int))) := by
  rcases FindTextureSlot_cases s tag hcap with ⟨h1, h2⟩ | ⟨k, h1, h2, h3, h4⟩
  · exact ⟨-1, h1, ⟨fun _ => h2, fun _ => rfl⟩, fun h => absurd rfl h, Or.inl rfl⟩
  · have hk : ((k : Nat) : Int) ≠ -1 := by omega
    refine ⟨(k : Int), h1, ⟨fun h => absurd h hk, fun h => absurd h3 (h k h2)⟩,
      fun _ => ⟨k, rfl, h2, h3, h4⟩, Or.inr ⟨by omega, by omega⟩⟩

/-- C1 at the registry `threeTextures` and the tag `"wax"`. -/
theorem FindTextureSlot_first_match_witness :
    threeTextures.m_loadedTextures ≤ TEXTURE_SLOTS ∧
    ∃ r : Int, FindTextureSlot threeTextures "wax" = .ok r ∧
      (r = -1 ↔ ∀ i, i < threeTextures.m_loadedTextures → threeTextures.tagAt i ≠ "wax") ∧
      (r ≠ -1 → ∃ k : Nat, r = (k : Int) ∧ k < threeTextures.m_loadedTextures ∧
          threeTextures.tagAt k = "wax" ∧ ∀ j, j < k → threeTextures.tagAt j ≠ "wax") ∧
      (r = -1 ∨ (0 ≤ r ∧ r < (threeTextures.m_loadedTextures : Int))) :=
  ⟨by decide, FindTextureSlot_first_match threeTextures "wax" (by decide)⟩

/-! ## C2: registering a texture and looking it up -/

/-- What a `CreateGLTexture` call that returns `true` has done. -/
theorem CreateGLTexture_true (stbi_load : String → Option Image) (s s' : SceneManager R)
    (filename tag : String) (textureID : Nat)
    (h : CreateGLTexture stbi_load s filename textureID tag = .ok (true, s')) :
    (∃ image, stbi_load filename = some image ∧
        (image.colorChannels = 3 ∨ image.colorChannels = 4)) ∧
    s.m_loadedTextures < TEXTURE_SLOTS ∧
    s'.m_loadedTextures = s.m_loadedTextures + 1 ∧
    s'.m_textureIDs =
      (fun j => if j.val = s.m_loadedTextures then ⟨textureID, tag⟩ else s.m_textureIDs j) ∧
    s'.m_objectMaterials = s.m_objectMaterials ∧
    s'.m_pShaderManager = s.m_pShaderManager := by
  unfold CreateGLTexture at h
  cases hl : stbi_load filename with
  | none => simp [hl] at h
  | some image =>
    simp only [hl] at h
    by_cases hc : image.colorChannels = 3 ∨ image.colorChannels = 4
    · simp only [hc, if_true, SceneManager.writeTexture] at h
      by_cases hr : s.m_loadedTextures < TEXTURE_SLOTS
      · simp only [hr, if_true] at h
        injection h with h
        injection h with _ h
        subst h
        exact ⟨⟨image, rfl, hc⟩, hr, rfl, rfl, rfl, rfl⟩
      · simp [hr] at h
    · simp [hc] at h

/-- A `CreateGLTexture` call returns `true` when the image loads with three or four channels
and the table has a free slot. -/
theorem CreateGLTexture_succeeds (stbi_load : String → Option Image) (s : SceneManager R)
    (filename tag : String) (textureID : Nat) (image : Image)
    (hl : stbi_load filename = some image)
    (hc : image.colorChannels = 3 ∨ image.colorChannels = 4)
    (hr : s.m_loadedTextures < TEXTURE_SLOTS) :
    ∃ s', CreateGLTexture stbi_load s filename textureID tag = .ok (true, s') := by
  simp [CreateGLTexture, hl, hc, SceneManager.writeTexture, hr]

/-- Tags of the entries below the old count are untouched by a registration. -/
theorem tagAt_after_register (s s' : SceneManager R) (e : TEXTURE_INFO)
    (htab : s'.m_textureIDs =
      (fun j => if j.val = s.m_loadedTextures then e else s.m_textureIDs j))
    {i : Nat} (hi : i < s.m_loadedTextures) : s'.tagAt i = s.tagAt i := by
  unfold SceneManager.tagAt
  by_cases h : i < TEXTURE_SLOTS
  · have hne : ¬ i = s.m_loadedTextures := by omega
    simp [h, htab, hne]
  · simp [h]

/-- C2. Let no entry of the registry carry the tag `t`, and let `CreateGLTexture file t`
return `true` (the image loaded with three or four channels).  Afterwards `FindTextureSlot t`
returns the old count, `FindTextureID t` returns the generated texture name (as the `int` the
`GLuint` converts to, which is the name itself below `2^31`), and `FindTextureSlot` of every
tag registered before returns what it returned before. -/
theorem CreateGLTexture_then_find (stbi_load : String → Option Image) (s s' : SceneManager R)
    (filename t : String) (textureID : Nat)
    (hnew : ∀ i, i < s.m_loadedTextures → s.tagAt i ≠ t)
    (hcall : CreateGLTexture stbi_load s filename textureID t = .ok (true, s')) :
    FindTextureSlot s' t = .ok (s.m_loadedTextures : Int) ∧
    FindTextureID s' t = .ok (GLuintToInt textureID) ∧
    (textureID < 2 ^ 31 → FindTextureID s' t = .ok (textureID : Int)) ∧
    ∀ (u : String) (i : Nat), i < s.m_loadedTextures → s.tagAt i = u →
      FindTextureSlot s' u = FindTextureSlot s u := by
  obtain ⟨_, hroom, hcount, htab, _, _⟩ := CreateGLTexture_true stbi_load s s' filename t textureID hcall
  have hcap : s.m_loadedTextures ≤ TEXTURE_SLOTS := by omega
  have hcap' : s'.m_loadedTextures ≤ TEXTURE_SLOTS := by omega
  have hold : ∀ {i}, i < s.m_loadedTextures → s'.tagAt i = s.tagAt i :=
    fun hi => tagAt_after_register s s' _ htab hi
  have htag : s'.tagAt s.m_loadedTextures = t := by
    simp [SceneManager.tagAt, hroom, htab]
  have hid : s'.idAt s.m_loadedTextures = textureID := by
    simp [SceneManager.idAt, hroom, htab]
  have hID : FindTextureID s' t = .ok (GLuintToInt textureID) := by
    rcases FindTextureID_cases s' t hcap' with ⟨_, h2⟩ | ⟨k, h1, h2, h3, h4⟩
    · exact absurd htag (h2 _ (by omega))
    · have hk : k = s.m_loadedTextures := by
        by_contra hne
        have hlt : k < s.m_loadedTextures := by omega
        exact hnew k hlt (by rw [← hold hlt]; exact h3)
      rw [h1, hk, hid]
  refine ⟨?_, hID, ?_, ?_⟩
  · rcases FindTextureSlot_cases s' t hcap' with ⟨_, h2⟩ | ⟨k, h1, h2, h3, h4⟩
    · exact absurd htag (h2 _ (by omega))
    · have hk : k = s.m_loadedTextures := by
        by_contra hne
        have hlt : k < s.m_loadedTextures := by omega
        exact hnew k hlt (by rw [← hold hlt]; exact h3)
      rw [h1, hk]
  · intro hsmall
    rw [hID]
    have h1 : textureID % 2 ^ 32 = textureID := Nat.mod_eq_of_lt (by omega)
    unfold GLuintToInt
    rw [h1, if_pos hsmall]
  · intro u i hi hu
    rcases FindTextureSlot_cases s u hcap with ⟨_, h2⟩ | ⟨k, h1, h2, h3, h4⟩
    · exact absurd hu (h2 i hi)
    · rcases FindTextureSlot_cases s' u hcap' with ⟨_, h2'⟩ | ⟨k', h1', h2', h3', h4'⟩
      · exact absurd (by rw [hold hi]; exact hu) (h2' i (by omega))
      · have hle : k' ≤ k := by
          by_contra hgt
          exact h4' k (by omega) (by rw [hold h2]; exact h3)
        have hlt' : k' < s.m_loadedTextures := by omega
        have hge : k ≤ k' := by
          by_contra hgt
          exact h4 k' (by omega) (by rw [← hold hlt']; exact h3')
        have : k' = k := by omega
        rw [h1, h1', this]

/-- C2 at the registry `threeTextures`, registering the new tag `"glass"` under name 42. -/
theorem CreateGLTexture_then_find_witness :
    ∃ s' : SceneManager ℚ,
      CreateGLTexture everyFileRGB threeTextures "./textures/glass.jpg" 42 "glass"
        = .ok (true, s') ∧
      FindTextureSlot s' "glass" = .ok (threeTextures.m_loadedTextures : Int) ∧
      FindTextureID s' "glass" = .ok (GLuintToInt 42) ∧
      ((42 : Nat) < 2 ^ 31 → FindTextureID s' "glass" = .ok ((42 : Nat) : Int)) ∧
      ∀ (u : String) (i : Nat), i < threeTextures.m_loadedTextures →
        threeTextures.tagAt i = u → FindTextureSlot s' u = FindTextureSlot threeTextures u :=
  ⟨_, rfl, CreateGLTexture_then_find everyFileRGB threeTextures _ "./textures/glass.jpg"
    "glass" 42
    (by
      intro i hi
      have h3 : i < 3 := hi
      interval_cases i <;> decide)
    rfl⟩

/-! ## C3: `FindMaterial` -/

/-- Once `bFound` is set the loop of `FindMaterial` stops at the next test. -/
theorem FindMaterial_loop_found (mats : List (OBJECT_MATERIAL R)) (tag : String)
    (fuel index : Nat) (material : OBJECT_MATERIAL R) :
    FindMaterial.loop mats tag (fuel + 1) index true material = .ok material := by
  simp [FindMaterial.loop]

/-- The loop of `FindMaterial`, started at `index` with nothing found yet, copies the first
material at or after `index` that carries `tag`, and leaves `material` alone when there is
none. -/
theorem FindMaterial_loop_spec (mats : List (OBJECT_MATERIAL R)) (tag : String) :
    ∀ (d index fuel : Nat) (material : OBJECT_MATERIAL R), index + d = mats.length →
      d + 1 ≤ fuel →
      FindMaterial.loop mats tag fuel index false material =
        .ok (match (mats.drop index).find? (fun m => decide (m.tag = tag)) with
             | none => material
             | some m => copyMaterial m material) := by
  intro d
  induction d with
  | zero =>
    intro index fuel material hd hf
    obtain ⟨f, rfl⟩ : ∃ f, fuel = f + 1 := ⟨fuel - 1, by omega⟩
    have h1 : ¬ index < mats.length := by omega
    have h2 : mats.drop index = [] := List.drop_eq_nil_of_le (by omega)
    simp [FindMaterial.loop, h1, h2]
  | succ d ih =>
    intro index fuel material hd hf
    obtain ⟨f, rfl⟩ : ∃ f, fuel = f + 1 := ⟨fuel - 1, by omega⟩
    have hlt : index < mats.length := by omega
    have hdrop : mats.drop index = mats[index] :: mats.drop (index + 1) :=
      List.drop_eq_getElem_cons hlt
    have hget : mats[index]? = some mats[index] := List.getElem?_eq_getElem hlt
    rw [FindMaterial.loop, hdrop]
    simp only [hlt, true_and, if_true, hget]
    by_cases ht : mats[index].tag = tag
    · obtain ⟨g, rfl⟩ : ∃ g, f = g + 1 := ⟨f - 1, by omega⟩
      simp only [ht, if_true, List.find?_cons, decide_True]
      exact FindMaterial_loop_found mats tag g index _
    · simp only [ht, if_false, List.find?_cons, decide_False]
      exact ih (index + 1) f material (by omega) (by omega)

/-- On a list with at least one material `FindMaterial` returns `true` whatever the tag; the
output holds the copied fields of the first material carrying the tag, and is the untouched
input when no material carries it. -/
theorem FindMaterial_nonempty (s : SceneManager R) (tag : String)
    (material : OBJECT_MATERIAL R) (hne : s.m_objectMaterials ≠ []) :
    FindMaterial s tag material =
      .ok (true, match s.m_objectMaterials.find? (fun m => decide (m.tag = tag)) with
                 | none => material
                 | some m => copyMaterial m material) := by
  have hlen : ¬ s.m_objectMaterials.length = 0 := by
    intro h; exact hne (List.length_eq_zero.mp h)
  unfold FindMaterial
  rw [if_neg hlen, FindMaterial_loop_spec s.m_objectMaterials tag s.m_objectMaterials.length 0
    _ material (by omega) (by omega)]
  simp

/-- C3, evaluation at the failing input.  After `DefineObjectMaterials` no material carries the
tag `"woodtable"`, and yet `FindMaterial "woodtable"` returns `true`, handing back the output
parameter exactly as it was passed in. -/
theorem FindMaterial_true_without_match :
    (∀ m ∈ (DefineObjectMaterials emptyScene).m_objectMaterials, m.tag ≠ "woodtable") ∧
    FindMaterial (DefineObjectMaterials emptyScene) "woodtable" glassMaterial
      = .ok (true, glassMaterial) := by
  refine ⟨?_, rfl⟩
  intro m hm
  simp only [DefineObjectMaterials, emptyScene, List.nil_append, List.mem_cons,
    List.mem_singleton, List.not_mem_nil, or_false] at hm
  rcases hm with h | h | h | h | h | h | h | h | h | h | h | h <;> subst h <;> decide

/-! ## C4: `SetTransformations` -/

/-- C4. With a shader manager attached, `SetTransformations` appends exactly one write, to the
uniform `"model"`, of `translate(position) * rotateX * rotateY * rotateZ * scale(scaleXYZ)`,
the angles being converted from degrees; applied to a vertex this matrix scales first, then
rotates about Z, then Y, then X, then translates; with a null shader manager the state is left
as it is.  The statement holds over every field, the real numbers among them. -/
theorem SetTransformations_model [Field R] (G : GLMTransform R) (s : SceneManager R)
    (sh : ShaderManager R) (scaleXYZ positionXYZ : Vec3 R) (x y z : R) :
    SetTransformations G { s with m_pShaderManager := some sh } scaleXYZ x y z positionXYZ =
      { s with m_pShaderManager := some ⟨sh.uniforms ++ [("model", .mat4Value
          (G.translate positionXYZ * G.rotate (G.radians x) ⟨1, 0, 0⟩ *
            G.rotate (G.radians y) ⟨0, 1, 0⟩ * G.rotate (G.radians z) ⟨0, 0, 1⟩ *
            G.scale scaleXYZ))]⟩ } ∧
    (∀ v : Fin 4 → R,
      Matrix.mulVec (G.translate positionXYZ * G.rotate (G.radians x) ⟨1, 0, 0⟩ *
            G.rotate (G.radians y) ⟨0, 1, 0⟩ * G.rotate (G.radians z) ⟨0, 0, 1⟩ *
            G.scale scaleXYZ) v =
        Matrix.mulVec (G.translate positionXYZ)
          (Matrix.mulVec (G.rotate (G.radians x) ⟨1, 0, 0⟩)
            (Matrix.mulVec (G.rotate (G.radians y) ⟨0, 1, 0⟩)
              (Matrix.mulVec (G.rotate (G.radians z) ⟨0, 0, 1⟩)
                (Matrix.mulVec (G.scale scaleXYZ) v))))) ∧
    SetTransformations G { s with m_pShaderManager := none } scaleXYZ x y z positionXYZ =
      { s with m_pShaderManager := none } := by
  refine ⟨?_, ?_, rfl⟩
  · have h1 : (1.0 : R) = 1 := by norm_num
    have h0 : (0.0 : R) = 0 := by norm_num
    simp only [SetTransformations, ShaderManager.setValue, h1, h0]
  · intro v
    simp only [Matrix.mulVec_mulVec, Matrix.mul_assoc]

/-! ## C5: the calls of `RenderScene` -/

/-- C5, counterexample.  The 19th draw call of `RenderScene`, the second pyramid of the D8, is
preceded after the 18th draw call by a `SetTransformations` call only: no texture, colour or
material is bound for it, so not every draw call is prepared in the claimed way. -/
theorem RenderScene_second_pyramid_not_prepared :
    (callsBeforeEachDraw [] (RenderScene : List (SceneCall ℚ)))[18]? =
      some [.SetTransformations ⟨0.35, 0.2, 0.35⟩ 130.0 0.0 0.0 ⟨-2.593, 0.825, 2.18⟩] ∧
    preparesDraw
      [(.SetTransformations ⟨0.35, 0.2, 0.35⟩ 130.0 0.0 0.0 ⟨-2.593, 0.825, 2.18⟩ :
        SceneCall ℚ)] = false ∧
    (callsBeforeEachDraw [] (RenderScene : List (SceneCall ℚ))).all preparesDraw = false :=
  ⟨rfl, rfl, rfl⟩

/-- C5, amended.  One `RenderScene` call issues 23 draw calls.  Every one of them is preceded,
after the previous draw call, by a `SetTransformations` call.  Every one except the 19th (the
second pyramid of the D8) is preceded there also by `SetShaderTexture` or `SetShaderColor` and
by `SetShaderMaterial`.  The 19th is preceded by `SetTransformations` alone, and the texture and
material in force when it is drawn are the ones bound for the 18th draw, `"marble"` and
`"marble_blue"`: between the two draws the shader state receives the write to `"model"` and
nothing else. -/
theorem RenderScene_draws_prepared_except_second_pyramid [Field R] :
    (callsBeforeEachDraw [] (RenderScene : List (SceneCall R))).length = 23 ∧
    (callsBeforeEachDraw [] (RenderScene : List (SceneCall R))).all
      (fun calls => calls.any SceneCall.isSetTransformations) = true ∧
    ((callsBeforeEachDraw [] (RenderScene : List (SceneCall R))).eraseIdx 18).all
      preparesDraw = true ∧
    (callsBeforeEachDraw [] (RenderScene : List (SceneCall R)))[18]? =
      some [.SetTransformations ⟨0.35, 0.2, 0.35⟩ 130.0 0.0 0.0 ⟨-2.593, 0.825, 2.18⟩] ∧
    inForceAtDraw SceneCall.isTextureOrColor 18 (RenderScene : List (SceneCall R)) =
      some (.SetShaderTexture "marble") ∧
    inForceAtDraw SceneCall.isTextureOrColor 17 (RenderScene : List (SceneCall R)) =
      some (.SetShaderTexture "marble") ∧
    inForceAtDraw SceneCall.isSetShaderMaterial 18 (RenderScene : List (SceneCall R)) =
      some (.SetShaderMaterial "marble_blue") ∧
    inForceAtDraw SceneCall.isSetShaderMaterial 17 (RenderScene : List (SceneCall R)) =
      some (.SetShaderMaterial "marble_blue") ∧
    (∀ (G : GLMTransform R) (uninitialised : OBJECT_MATERIAL R) (s : SceneManager R)
        (sh : ShaderManager R),
      runCalls G uninitialised
          [.SetTransformations ⟨0.35, 0.2, 0.35⟩ 130.0 0.0 0.0 ⟨-2.593, 0.825, 2.18⟩,
           .draw .DrawPyramid4Mesh []]
          { s with m_pShaderManager := some sh } =
        .ok (SetTransformations G { s with m_pShaderManager := some sh }
          ⟨0.35, 0.2, 0.35⟩ 130.0 0.0 0.0 ⟨-2.593, 0.825, 2.18⟩) ∧
      ∃ model : Mat4 R,
        (SetTransformations G { s with m_pShaderManager := some sh }
          ⟨0.35, 0.2, 0.35⟩ 130.0 0.0 0.0 ⟨-2.593, 0.825, 2.18⟩).m_pShaderManager =
            some ⟨sh.uniforms ++ [("model", .mat4Value model)]⟩) :=
  ⟨rfl, rfl, rfl, rfl, rfl, rfl, rfl, rfl, fun _ _ _ _ => ⟨rfl, _, rfl⟩⟩

/-! ## C7: the scroll wheel -/

/-- One scroll event sets the multiplier to the clamped sum. -/
theorem scroll_callback_eq [LinearOrderedField R] (s : ViewManager R Ω) (x y : R) :
    scroll_callback s x y =
      { s with gMoveSpeedMultiplier := clamp (s.gMoveSpeedMultiplier + y) 0.5 5.0 } := by
  have h : (0.5 : R) < 5.0 := by norm_num
  unfold scroll_callback clamp
  by_cases h1 : s.gMoveSpeedMultiplier + y < 0.5
  · have h2 : ¬ (0.5 : R) > 5.0 := not_lt.mpr (le_of_lt h)
    simp only [h1, if_true, h2, if_false]
  · by_cases h3 : s.gMoveSpeedMultiplier + y > 5.0
    · simp only [h1, if_false, h3, if_true]
    · simp only [h1, if_false, h3]

/-- The clamped value lies between the bounds. -/
theorem clamp_mem [LinearOrderedField R] (v : R) : 0.5 ≤ clamp v 0.5 5.0 ∧ clamp v 0.5 5.0 ≤ 5.0 := by
  have h : (0.5 : R) ≤ 5.0 := by norm_num
  unfold clamp
  by_cases h1 : v < 0.5
  · simp only [h1, if_true]; exact ⟨le_refl _, h⟩
  · by_cases h2 : (5.0 : R) < v
    · simp only [h1, if_false, h2, if_true]; exact ⟨h, le_refl _⟩
    · simp only [h1, if_false, h2]; exact ⟨not_lt.mp h1, not_lt.mp h2⟩

/-- A multiplier inside the bounds stays inside under any sequence of scroll events. -/
theorem scrollEvents_mem [LinearOrderedField R] (events : List (R × R)) :
    ∀ s : ViewManager R Ω, 0.5 ≤ s.gMoveSpeedMultiplier ∧ s.gMoveSpeedMultiplier ≤ 5.0 →
      0.5 ≤ (scrollEvents s events).gMoveSpeedMultiplier ∧
        (scrollEvents s events).gMoveSpeedMultiplier ≤ 5.0 := by
  induction events with
  | nil => intro s hs; exact hs
  | cons e es ih =>
    intro s _
    have : scrollEvents s (e :: es) = scrollEvents (scroll_callback s e.1 e.2) es := rfl
    rw [this]
    apply ih
    rw [scroll_callback_eq]
    exact clamp_mem _

/-- C7. For every state and every scroll event, `scroll_callback` changes nothing but the
multiplier, which becomes `clamp(old + yOffset, 0.5, 5.0)`, that is `max 0.5 (min (old +
yOffset) 5.0)`.  Started at `1.0`, the multiplier is in `[0.5, 5.0]` after every sequence of
scroll events.  The `xOffset` of an event has no effect.  The statement holds over every
ordered field, the rationals among them. -/
theorem scroll_callback_clamps [LinearOrderedField R] (s : ViewManager R Ω) (x y : R)
    (events : List (R × R)) :
    scroll_callback s x y =
      { s with gMoveSpeedMultiplier := clamp (s.gMoveSpeedMultiplier + y) 0.5 5.0 } ∧
    clamp (s.gMoveSpeedMultiplier + y) 0.5 5.0 = max 0.5 (min (s.gMoveSpeedMultiplier + y) 5.0) ∧
    (0.5 ≤ (scrollEvents { s with gMoveSpeedMultiplier := 1.0 } events).gMoveSpeedMultiplier ∧
      (scrollEvents { s with gMoveSpeedMultiplier := 1.0 } events).gMoveSpeedMultiplier ≤ 5.0) ∧
    (∀ x' : R, scroll_callback s x' y = scroll_callback s x y) := by
  refine ⟨scroll_callback_eq s x y, ?_, ?_, fun _ => rfl⟩
  · have h : (0.5 : R) ≤ 5.0 := by norm_num
    unfold clamp
    by_cases h1 : s.gMoveSpeedMultiplier + y < 0.5
    · rw [if_pos h1, min_eq_left (le_trans (le_of_lt h1) h), max_eq_left (le_of_lt h1)]
    · by_cases h2 : (5.0 : R) < s.gMoveSpeedMultiplier + y
      · rw [if_neg h1, if_pos h2, min_eq_right (le_of_lt h2), max_eq_right h]
      · rw [if_neg h1, if_neg h2, min_eq_left (not_lt.mp h2), max_eq_right (not_lt.mp h1)]
  · apply scrollEvents_mem
    constructor <;> norm_num

/-! ## The view manager: keyboard processing and the frame -/

/-- What `ProcessKeyboardEvents` leaves alone. -/
theorem ProcessKeyboardEvents_frame [Field R] (C : CameraMethods R Ω) (keys : Key → Bool)
    (s : ViewManager R Ω) :
    (ProcessKeyboardEvents C keys s).m_pShaderManager = s.m_pShaderManager ∧
    (ProcessKeyboardEvents C keys s).gMoveSpeedMultiplier = s.gMoveSpeedMultiplier ∧
    (ProcessKeyboardEvents C keys s).gLastFrame = s.gLastFrame ∧
    (ProcessKeyboardEvents C keys s).gDeltaTime = s.gDeltaTime ∧
    (ProcessKeyboardEvents C keys s).g_pCamera.isSome = s.g_pCamera.isSome := by
  unfold ProcessKeyboardEvents
  cases hc : s.g_pCamera with
  | none =>
    by_cases hE : keys .ESCAPE = true <;> simp [hE, hc]
  | some c =>
    by_cases hE : keys .ESCAPE = true <;> by_cases hO : keys .O = true <;>
      by_cases hP : keys .P = true <;> simp [hE, hO, hP, hc]

/-- With a camera present, `PrepareSceneView` returns, and the result is the state after the
keyboard processing with three writes appended to the log of the shader manager, if there is
one. -/
theorem PrepareSceneView_eq [Field R] (C : CameraMethods R Ω) (P : GLMProjection R)
    (keys : Key → Bool) (t : R) (s : ViewManager R Ω) (cam₁ : Camera R Ω)
    (h : (afterKeyboard C keys t s).g_pCamera = some cam₁) :
    PrepareSceneView C P keys t s =
      .ok (match (afterKeyboard C keys t s).m_pShaderManager with
           | some sh =>
             { afterKeyboard C keys t s with
               m_pShaderManager := some ⟨sh.uniforms ++
                 [("view", .mat4Value (C.GetViewMatrix cam₁)),
                  ("projection", .mat4Value (sceneProjection P
                    (afterKeyboard C keys t s).bOrthographicProjection cam₁.Zoom)),
                  ("viewPosition", .vec3Value cam₁.Position)]⟩ }
           | none => afterKeyboard C keys t s) := by
  unfold afterKeyboard frameTimed at h ⊢
  unfold PrepareSceneView
  simp only [h]
  cases (ProcessKeyboardEvents C keys
      { s with gDeltaTime := t - s.gLastFrame, gLastFrame := t }).m_pShaderManager with
  | none => rfl
  | some sh => simp [ShaderManager.setValue]

/-- The projection `PrepareSceneView` computes, with the window constants evaluated. -/
theorem sceneProjection_eq [Field R] (P : GLMProjection R) (flag : Bool) (Zoom : R) :
    sceneProjection P flag Zoom =
      if flag = true then
        P.ortho (-5.0) 5.0 (-5.0 * ((800 : R) / 1000)) (5.0 * ((800 : R) / 1000)) 0.1 100.0
      else P.perspective (P.radians Zoom) ((1000 : R) / 800) 0.1 100.0 := by
  cases flag <;> simp [sceneProjection, WINDOW_WIDTH, WINDOW_HEIGHT]

/-- The camera is still there after the keyboard processing. -/
theorem afterKeyboard_camera [Field R] (C : CameraMethods R Ω) (keys : Key → Bool) (t : R)
    (s : ViewManager R Ω) (cam : Camera R Ω) (h : s.g_pCamera = some cam) :
    ∃ cam₁, (afterKeyboard C keys t s).g_pCamera = some cam₁ := by
  have h5 := (ProcessKeyboardEvents_frame C keys (frameTimed t s)).2.2.2.2
  have hs : (frameTimed t s).g_pCamera = some cam := h
  rw [hs] at h5
  exact Option.isSome_iff_exists.mp h5

/-- The shader manager is the same before and after the keyboard processing. -/
theorem afterKeyboard_shader [Field R] (C : CameraMethods R Ω) (keys : Key → Bool) (t : R)
    (s : ViewManager R Ω) :
    (afterKeyboard C keys t s).m_pShaderManager = s.m_pShaderManager :=
  (ProcessKeyboardEvents_frame C keys (frameTimed t s)).1

/-! ## C8: the projection -/

/-- C8. The flag `bOrthographicProjection` is initially `false`.  In every state with a camera
and a shader manager, `PrepareSceneView` writes to `"projection"` the orthographic matrix
`ortho(-5, 5, -5 * 800/1000, 5 * 800/1000, 0.1, 100)` when the flag is `true` after the
keyboard processing of that frame, and otherwise the perspective matrix with field of view
`radians(Zoom)`, aspect `1000/800`, near `0.1` and far `100`, `Zoom` being the camera zoom after
the keyboard processing.  By the reference formulas of GLM an orthographic matrix is never a
perspective matrix, so the matrix written is orthographic exactly when the flag is `true`. -/
theorem PrepareSceneView_projection [Field R] (C : CameraMethods R Ω) (P : GLMProjection R)
    (keys : Key → Bool) (t : R) (s : ViewManager R Ω) (cam : Camera R Ω)
    (sh : ShaderManager R) :
    (staticInitialisation : ViewManager R Ω).bOrthographicProjection = false ∧
    (∃ (cam₁ : Camera R Ω) (view position : UniformValue R),
      (afterKeyboard C keys t (s.attach cam (some sh))).g_pCamera = some cam₁ ∧
      PrepareSceneView C P keys t (s.attach cam (some sh)) =
        .ok ((afterKeyboard C keys t (s.attach cam (some sh))).withUniforms (sh.uniforms ++
          [("view", view),
           ("projection", .mat4Value
              (if (afterKeyboard C keys t (s.attach cam (some sh))).bOrthographicProjection
                    = true then
                P.ortho (-5.0) 5.0 (-5.0 * ((800 : R) / 1000)) (5.0 * ((800 : R) / 1000))
                  0.1 100.0
              else P.perspective (P.radians cam₁.Zoom) ((1000 : R) / 800) 0.1 100.0)),
           ("viewPosition", position)]))) ∧
    (∀ (tan : R → R) (left right bottom top zNear zFar fovy aspect near far : R),
      glmOrtho left right bottom top zNear zFar ≠ glmPerspective tan fovy aspect near far) := by
  refine ⟨rfl, ?_, ?_⟩
  · obtain ⟨cam₁, h⟩ := afterKeyboard_camera C keys t (s.attach cam (some sh)) cam rfl
    refine ⟨cam₁, .mat4Value (C.GetViewMatrix cam₁), .vec3Value cam₁.Position, h, ?_⟩
    rw [PrepareSceneView_eq C P keys t _ cam₁ h, afterKeyboard_shader, sceneProjection_eq]
    rfl
  · intro tan l r b tp n f fovy aspect near far h
    have h3 := congrFun (congrFun h 3) 3
    simp [glmPerspective, glmOrtho] at h3

/-! ## C9: the three uniforms of a frame -/

/-- C9. In every state with a camera and a shader manager, `PrepareSceneView` appends exactly
three writes to the shader state, in this order: `"view"` with the view matrix of the camera,
`"projection"` with the projection matrix, and `"viewPosition"` with the camera `Position`, the
camera being the one after the keyboard processing of that frame.  In every state with a
camera and a null shader manager it returns the state after the keyboard processing, whose
shader manager is still null: nothing is written. -/
theorem PrepareSceneView_pushes_once [Field R] (C : CameraMethods R Ω) (P : GLMProjection R)
    (keys : Key → Bool) (t : R) (s : ViewManager R Ω) (cam : Camera R Ω)
    (sh : ShaderManager R) :
    (∃ cam₁ : Camera R Ω,
      (afterKeyboard C keys t (s.attach cam (some sh))).g_pCamera = some cam₁ ∧
      PrepareSceneView C P keys t (s.attach cam (some sh)) =
        .ok ((afterKeyboard C keys t (s.attach cam (some sh))).withUniforms (sh.uniforms ++
          [("view", .mat4Value (C.GetViewMatrix cam₁)),
           ("projection", .mat4Value (sceneProjection P
              (afterKeyboard C keys t (s.attach cam (some sh))).bOrthographicProjection
              cam₁.Zoom)),
           ("viewPosition", .vec3Value cam₁.Position)]))) ∧
    PrepareSceneView C P keys t (s.attach cam none) =
      .ok (afterKeyboard C keys t (s.attach cam none)) ∧
    (afterKeyboard C keys t (s.attach cam none)).m_pShaderManager = none := by
  refine ⟨?_, ?_, afterKeyboard_shader C keys t _⟩
  · obtain ⟨cam₁, h⟩ := afterKeyboard_camera C keys t (s.attach cam (some sh)) cam rfl
    refine ⟨cam₁, h, ?_⟩
    rw [PrepareSceneView_eq C P keys t _ cam₁ h, afterKeyboard_shader]
    rfl
  · obtain ⟨cam₁, h⟩ := afterKeyboard_camera C keys t (s.attach cam none) cam rfl
    rw [PrepareSceneView_eq C P keys t _ cam₁ h, afterKeyboard_shader]
    rfl

/-! ## C6: what a frame depends on -/

/-- The keyboard processing of a frame maps agreeing states to agreeing states. -/
theorem afterKeyboard_agree [Field R] (C : CameraMethods R Ω) (keys : Key → Bool) (t : R)
    (s₁ s₂ : ViewManager R Ω) (h : agreeOnView s₁ s₂) :
    agreeOnView (afterKeyboard C keys t s₁) (afterKeyboard C keys t s₂) := by
  obtain ⟨hc, hm, hl, hb, hs⟩ := h
  unfold agreeOnView afterKeyboard frameTimed ProcessKeyboardEvents
  cases hc₁ : s₁.g_pCamera with
  | none =>
    rw [hc₁] at hc
    by_cases hE : keys .ESCAPE = true <;> simp [hE, hc₁, ← hc, hm, hl, hb, hs]
  | some c =>
    rw [hc₁] at hc
    by_cases hE : keys .ESCAPE = true <;> by_cases hO : keys .O = true <;>
      by_cases hP : keys .P = true <;> simp [hE, hO, hP, hc₁, ← hc, hm, hl, hb, hs]

/-- C6, amended.  Let two view states agree on the camera object, on `gMoveSpeedMultiplier`,
on `gLastFrame`, on `bOrthographicProjection` and on whether a shader manager is attached, and
give them the same key states and the same clock reading.  Then `PrepareSceneView` either
fails in both (null camera) or returns in both; in the latter case it adds the same uniform
writes (view matrix, projection matrix, `viewPosition`) and leaves the two states agreeing on
the same components.  The mouse variables, the previous `gDeltaTime`, the close flag of the
window and the earlier content of the shader state do not matter. -/
theorem PrepareSceneView_agree [Field R] (C : CameraMethods R Ω) (P : GLMProjection R)
    (keys : Key → Bool) (t : R) (s₁ s₂ : ViewManager R Ω) (h : agreeOnView s₁ s₂) :
    match PrepareSceneView C P keys t s₁, PrepareSceneView C P keys t s₂ with
    | .ok r₁, .ok r₂ => newUniforms s₁ r₁ = newUniforms s₂ r₂ ∧ agreeOnView r₁ r₂
    | .error f₁, .error f₂ => f₁ = f₂
    | _, _ => False := by
  have ha := afterKeyboard_agree C keys t s₁ s₂ h
  obtain ⟨hc, hm, hl, hb, hs⟩ := ha
  have hsh₁ := afterKeyboard_shader C keys t s₁
  have hsh₂ := afterKeyboard_shader C keys t s₂
  cases hc₁ : (afterKeyboard C keys t s₁).g_pCamera with
  | none =>
    have hc₂ : (afterKeyboard C keys t s₂).g_pCamera = none := by rw [← hc, hc₁]
    have e₁ : PrepareSceneView C P keys t s₁ = .error .nullPointer := by
      unfold afterKeyboard frameTimed at hc₁
      unfold PrepareSceneView
      simp only [hc₁]
    have e₂ : PrepareSceneView C P keys t s₂ = .error .nullPointer := by
      unfold afterKeyboard frameTimed at hc₂
      unfold PrepareSceneView
      simp only [hc₂]
    rw [e₁, e₂]
  | some cam₁ =>
    have hc₂ : (afterKeyboard C keys t s₂).g_pCamera = some cam₁ := by rw [← hc, hc₁]
    rw [PrepareSceneView_eq C P keys t s₁ cam₁ hc₁, PrepareSceneView_eq C P keys t s₂ cam₁ hc₂]
    rw [hsh₁, hsh₂, hb]
    cases h₁ : s₁.m_pShaderManager with
    | none =>
      cases h₂ : s₂.m_pShaderManager with
      | none =>
        simp only [newUniforms, h₁, h₂]
        exact ⟨trivial, hc, hm, hl, hb, hs⟩
      | some sh₂ =>
        have := h.2.2.2.2
        rw [h₁, h₂] at this
        simp at this
    | some sh₁ =>
      cases h₂ : s₂.m_pShaderManager with
      | none =>
        have := h.2.2.2.2
        rw [h₁, h₂] at this
        simp at this
      | some sh₂ =>
        simp only [newUniforms, h₁, h₂, List.drop_left]
        exact ⟨trivial, hc, hm, hl, hb, rfl⟩

/-- C6, amended, at the states `perspectiveView` and `busyPerspectiveView` with the key `W`
pressed and the clock at two seconds. -/
theorem PrepareSceneView_agree_witness :
    agreeOnView perspectiveView busyPerspectiveView ∧
    match PrepareSceneView dollyCamera rationalProjection onlyW 2 perspectiveView,
        PrepareSceneView dollyCamera rationalProjection onlyW 2 busyPerspectiveView with
    | .ok r₁, .ok r₂ =>
      newUniforms perspectiveView r₁ = newUniforms busyPerspectiveView r₂ ∧ agreeOnView r₁ r₂
    | .error f₁, .error f₂ => f₁ = f₂
    | _, _ => False :=
  ⟨⟨rfl, rfl, rfl, rfl, rfl⟩,
    PrepareSceneView_agree dollyCamera rationalProjection onlyW 2 perspectiveView
      busyPerspectiveView ⟨rfl, rfl, rfl, rfl, rfl⟩⟩

/-- C6, counterexample.  The states `perspectiveView` and `orthographicView` agree on the
camera pose and on `gMoveSpeedMultiplier` and differ in `bOrthographicProjection` only.  With no
key pressed and the same clock reading, `PrepareSceneView` returns in both, and the uniform
writes differ: one projection is `glm::perspective`, the other `glm::ortho`, whose bottom right
entries are 0 and 1, whatever the camera methods, the tangent and `pi` are. -/
theorem PrepareSceneView_depends_on_projection_flag :
    agreeOnPoseAndSpeed perspectiveView orthographicView ∧
    ∀ (C : CameraMethods ℚ Unit) (tan : ℚ → ℚ) (pi : ℚ),
      ∃ r₁ r₂, PrepareSceneView C (glmProjection tan pi) noKeys 0 perspectiveView = .ok r₁ ∧
        PrepareSceneView C (glmProjection tan pi) noKeys 0 orthographicView = .ok r₂ ∧
        newUniforms perspectiveView r₁ ≠ newUniforms orthographicView r₂ := by
  refine ⟨⟨rfl, rfl⟩, ?_⟩
  intro C tan pi
  refine ⟨_, _, rfl, rfl, ?_⟩
  intro h
  have h2 := congrArg (fun l => l[1]?) h
  simp [newUniforms, perspectiveView, orthographicView, ShaderManager.setValue,
    ProcessKeyboardEvents, noKeys, staticInitialisation] at h2
  have h3 := congrFun (congrFun h2 3) 3
  simp [sceneProjection, glmProjection, glmPerspective, glmOrtho, WINDOW_WIDTH,
    WINDOW_HEIGHT] at h3

/-- The time stamp `gLastFrame` is cross-frame state as well.  The states `perspectiveView` and
`laterPerspectiveView` agree on the camera pose, on `gMoveSpeedMultiplier` and on
`bOrthographicProjection`; with the key `W` pressed and the clock at two seconds the sample
camera ends in different positions, for every projection library. -/
theorem PrepareSceneView_depends_on_gLastFrame :
    agreeOnPoseAndSpeed perspectiveView laterPerspectiveView ∧
    perspectiveView.bOrthographicProjection = laterPerspectiveView.bOrthographicProjection ∧
    ∀ P : GLMProjection ℚ,
      ∃ r₁ r₂, PrepareSceneView dollyCamera P onlyW 2 perspectiveView = .ok r₁ ∧
        PrepareSceneView dollyCamera P onlyW 2 laterPerspectiveView = .ok r₂ ∧
        ¬ agreeOnPoseAndSpeed r₁ r₂ := by
  refine ⟨⟨rfl, rfl⟩, rfl, ?_⟩
  intro P
  refine ⟨_, _, rfl, rfl, ?_⟩
  intro h
  have h1 := h.1
  simp [ProcessKeyboardEvents, onlyW, dollyCamera, perspectiveView, laterPerspectiveView,
    orthographicView, staticInitialisation, frontCamera, Camera.pose] at h1
  norm_num at h1

/-! ## C10: the capacity of the texture table -/

/-- A `CreateGLTexture` call on a registry with a free slot does not fault, and it raises the
count by at most one. -/
theorem CreateGLTexture_room (stbi_load : String → Option Image) (s : SceneManager R)
    (filename tag : String) (textureID : Nat) (hr : s.m_loadedTextures < TEXTURE_SLOTS) :
    ∃ b s', CreateGLTexture stbi_load s filename textureID tag = .ok (b, s') ∧
      s'.m_loadedTextures ≤ s.m_loadedTextures + 1 := by
  unfold CreateGLTexture
  cases stbi_load filename with
  | none => exact ⟨false, s, rfl, by omega⟩
  | some image =>
    by_cases hc : image.colorChannels = 3 ∨ image.colorChannels = 4
    · simp only [hc, if_true, SceneManager.writeTexture, hr]
      exact ⟨true, _, rfl, le_refl _⟩
    · simp only [hc, if_false]
      exact ⟨false, _, rfl, by simp⟩

/-- A sequence of `CreateGLTexture` calls that fits into the free part of the table does not
fault, and the count grows by at most the number of calls. -/
theorem CreateGLTextures_room (stbi_load : String → Option Image) (reqs : List TextureRequest) :
    ∀ s : SceneManager R, s.m_loadedTextures + reqs.length ≤ TEXTURE_SLOTS →
      ∃ s', CreateGLTextures stbi_load s reqs = .ok s' ∧
        s'.m_loadedTextures ≤ s.m_loadedTextures + reqs.length := by
  induction reqs with
  | nil => intro s _; exact ⟨s, rfl, by simp⟩
  | cons q qs ih =>
    intro s hs
    simp only [List.length_cons] at hs
    obtain ⟨b, s₁, h1, h2⟩ :=
      CreateGLTexture_room stbi_load s q.filename q.tag q.textureID (by omega)
    obtain ⟨s', h3, h4⟩ := ih s₁ (by omega)
    refine ⟨s', ?_, ?_⟩
    · rw [CreateGLTextures, h1]; exact h3
    · simp only [List.length_cons]; omega

/-- The loop of `BindGLTextures` does not fault while it stays inside the table. -/
theorem BindGLTextures_loop_ok (s : SceneManager R) :
    ∀ (n : Nat) (gl : GLState), n ≤ TEXTURE_SLOTS →
      ∃ gl', (List.range n).foldlM
        (fun (gl : GLState) (i : Nat) =>
          match s.readTexture i with
          | .error f => Except.error f
          | .ok e => Except.ok ((gl.glActiveTexture i).glBindTexture e.ID)) gl = .ok gl' := by
  intro n
  induction n with
  | zero => intro gl _; exact ⟨gl, rfl⟩
  | succ n ih =>
    intro gl hn
    obtain ⟨gl₁, h1⟩ := ih gl (by omega)
    have hin : n < TEXTURE_SLOTS := by omega
    rw [List.range_succ, List.foldlM_append, h1]
    simp only [List.foldlM_cons, List.foldlM_nil, readTexture_ok s hin]
    exact ⟨_, rfl⟩

/-- On a registry inside the table `BindGLTextures` does not fault and keeps the registry. -/
theorem BindGLTextures_ok (s : SceneManager R) (h : s.m_loadedTextures ≤ TEXTURE_SLOTS) :
    ∃ s', BindGLTextures s = .ok s' ∧ s'.m_loadedTextures = s.m_loadedTextures ∧
      s'.m_textureIDs = s.m_textureIDs := by
  obtain ⟨gl', h1⟩ := BindGLTextures_loop_ok s s.m_loadedTextures s.gl h
  refine ⟨{ s with gl := gl' }, ?_, rfl, rfl⟩
  unfold BindGLTextures
  rw [h1]

/-- Called once on an empty registry, `LoadSceneTextures` stays inside the table: it does not
fault and registers at most ten textures, whatever the files contain. -/
theorem LoadSceneTextures_once (stbi_load : String → Option Image) (glGen : Nat → Nat)
    (s : SceneManager R) (h : s.m_loadedTextures = 0) :
    ∃ s', LoadSceneTextures stbi_load glGen s = .ok s' ∧ s'.m_loadedTextures ≤ 10 := by
  have hlen : (sceneTextureRequests glGen).length = 10 := rfl
  obtain ⟨s₁, h1, h2⟩ := CreateGLTextures_room stbi_load (sceneTextureRequests glGen) s
    (by rw [h, hlen]; decide)
  have h3 : s₁.m_loadedTextures ≤ 10 := by omega
  obtain ⟨s', h4, h5, _⟩ := BindGLTextures_ok s₁ (by unfold TEXTURE_SLOTS; omega)
  refine ⟨s', ?_, by omega⟩
  unfold LoadSceneTextures
  rw [h1]
  exact h4

/-- C10, evaluation at the failing input.  From the empty registry, sixteen `CreateGLTexture`
calls for a loadable image fill the table (`m_loadedTextures = 16`), and the seventeenth call
writes `m_textureIDs[16]`, outside the table.  The same happens when `LoadSceneTextures` runs a
second time on the scene manager: the first run registers ten textures, and the seventh call of
the second run writes `m_textureIDs[16]`. -/
theorem CreateGLTexture_seventeenth_out_of_bounds :
    (∃ s : SceneManager ℚ,
      CreateGLTextures everyFileRGB emptyScene (seventeenRequests.take 16) = .ok s ∧
      s.m_loadedTextures = 16) ∧
    CreateGLTextures everyFileRGB emptyScene seventeenRequests = .error (.outOfBounds 16) ∧
    ∃ s : SceneManager ℚ,
      LoadSceneTextures everyFileRGB (fun i => i + 1) emptyScene = .ok s ∧
      s.m_loadedTextures = 10 ∧
      LoadSceneTextures everyFileRGB (fun i => i + 11) s = .error (.outOfBounds 16) :=
  ⟨⟨_, rfl, rfl⟩, rfl, ⟨_, rfl, rfl, rfl⟩⟩

/-! ## C11: `DestroyGLTextures` -/

/-- One round of the loop of `DestroyGLTextures` inside the table: it does not fault, keeps the
count and the allocated names, and adds the name OpenGL hands out. -/
theorem DestroyGLTextures_body_ok (st : SceneManager R) (i name : Nat)
    (hi : i < TEXTURE_SLOTS) :
    ∃ st₂, DestroyGLTextures.body st i name = .ok st₂ ∧
      st₂.gl.textureNames = st.gl.textureNames ++ [name] ∧
      st₂.m_loadedTextures = st.m_loadedTextures := by
  unfold DestroyGLTextures.body
  rw [readTexture_ok st hi]
  simp only [SceneManager.writeTexture, hi, if_true]
  exact ⟨_, rfl, rfl, rfl⟩

/-- The loop of `DestroyGLTextures`, run for the first `n` slots of the table: it does not
fault, deletes no texture name and adds the `n` names OpenGL hands out. -/
theorem DestroyGLTextures_loop (glGen : Nat → Nat) (s : SceneManager R) :
    ∀ n : Nat, n ≤ TEXTURE_SLOTS →
      ∃ st : SceneManager R,
        (List.range n).foldlM
          (fun (st : SceneManager R) (i : Nat) => DestroyGLTextures.body st i (glGen i))
          s = .ok st ∧
        st.gl.textureNames = s.gl.textureNames ++ (List.range n).map glGen ∧
        st.m_loadedTextures = s.m_loadedTextures := by
  intro n
  induction n with
  | zero => intro _; exact ⟨s, rfl, by simp, rfl⟩
  | succ n ih =>
    intro hn
    obtain ⟨st, h1, h2, h3⟩ := ih (by omega)
    obtain ⟨st₂, h4, h5, h6⟩ := DestroyGLTextures_body_ok st n (glGen n) (by omega)
    refine ⟨st₂, ?_, ?_, by rw [h6, h3]⟩
    · rw [List.range_succ, List.foldlM_append, h1]
      simp only [List.foldlM_cons, List.foldlM_nil]
      show (DestroyGLTextures.body st n (glGen n) >>= fun x => pure x) = Except.ok st₂
      rw [h4]; rfl
    · rw [h5, h2, List.range_succ, List.map_append, List.append_assoc]
      rfl

/-- On a registry inside the table `DestroyGLTextures` returns; afterwards the allocated
texture names are the ones allocated before followed by one new name per registered texture. -/
theorem DestroyGLTextures_allocates (glGen : Nat → Nat) (s : SceneManager R)
    (h : s.m_loadedTextures ≤ TEXTURE_SLOTS) :
    ∃ s', DestroyGLTextures glGen s = .ok s' ∧
      s'.gl.textureNames = s.gl.textureNames ++ (List.range s.m_loadedTextures).map glGen ∧
      s'.m_loadedTextures = s.m_loadedTextures :=
  DestroyGLTextures_loop glGen s s.m_loadedTextures h

/-- C11, evaluation at the failing input.  `LoadSceneTextures` registers ten textures under the
names 1 to 10.  After `DestroyGLTextures`, to which OpenGL hands out the names 11 to 20, every
one of the names 1 to 10 is still allocated, ten new names have been allocated, and the ten
entries of the registry hold the new names. -/
theorem DestroyGLTextures_frees_nothing :
    ∃ s s' : SceneManager ℚ,
      LoadSceneTextures everyFileRGB (fun i => i + 1) emptyScene = .ok s ∧
      DestroyGLTextures (fun i => i + 11) s = .ok s' ∧
      s.gl.textureNames = [1, 2, 3, 4, 5, 6, 7, 8, 9, 10] ∧
      (List.range s.m_loadedTextures).map s.idAt = [1, 2, 3, 4, 5, 6, 7, 8, 9, 10] ∧
      s'.gl.textureNames =
        [1, 2, 3, 4, 5, 6, 7, 8, 9, 10, 11, 12, 13, 14, 15, 16, 17, 18, 19, 20] ∧
      (List.range s'.m_loadedTextures).map s'.idAt =
        [11, 12, 13, 14, 15, 16, 17, 18, 19, 20] :=
  ⟨_, _, rfl, rfl, rfl, rfl, rfl, rfl⟩

/-! ## C12: `CreateGLTexture` and the registry -/

/-- What a `CreateGLTexture` call that returns `false` has done: the image did not load with
three or four channels, and the registry is as it was. -/
theorem CreateGLTexture_false (stbi_load : String → Option Image) (s s' : SceneManager R)
    (filename tag : String) (textureID : Nat)
    (h : CreateGLTexture stbi_load s filename textureID tag = .ok (false, s')) :
    (¬ ∃ image, stbi_load filename = some image ∧
        (image.colorChannels = 3 ∨ image.colorChannels = 4)) ∧
    s'.m_loadedTextures = s.m_loadedTextures ∧
    s'.m_textureIDs = s.m_textureIDs ∧
    s'.m_objectMaterials = s.m_objectMaterials ∧
    s'.m_pShaderManager = s.m_pShaderManager := by
  unfold CreateGLTexture at h
  cases hl : stbi_load filename with
  | none =>
    simp only [hl] at h
    injection h with h
    injection h with _ h
    subst h
    exact ⟨by rintro ⟨im, h1, _⟩; exact Option.noConfusion h1, rfl, rfl, rfl, rfl⟩
  | some image =>
    simp only [hl] at h
    by_cases hc : image.colorChannels = 3 ∨ image.colorChannels = 4
    · simp only [hc, if_true, SceneManager.writeTexture] at h
      by_cases hr : s.m_loadedTextures < TEXTURE_SLOTS
      · simp [hr] at h
      · simp [hr] at h
    · simp only [hc, if_false] at h
      injection h with h
      injection h with _ h
      subst h
      refine ⟨?_, rfl, rfl, rfl, rfl⟩
      rintro ⟨im, h1, h2⟩
      injection h1 with h1
      subst h1
      exact hc h2

/-- A `CreateGLTexture` call returns when the image does not load with three or four channels,
and when the table has a free slot. -/
theorem CreateGLTexture_returns (stbi_load : String → Option Image) (s : SceneManager R)
    (filename tag : String) (textureID : Nat)
    (h : (¬ ∃ image, stbi_load filename = some image ∧
        (image.colorChannels = 3 ∨ image.colorChannels = 4)) ∨
      s.m_loadedTextures < TEXTURE_SLOTS) :
    ∃ b s', CreateGLTexture stbi_load s filename textureID tag = .ok (b, s') := by
  rcases h with h | h
  · unfold CreateGLTexture
    cases hl : stbi_load filename with
    | none => exact ⟨false, s, rfl⟩
    | some image =>
      have hc : ¬ (image.colorChannels = 3 ∨ image.colorChannels = 4) :=
        fun hc => h ⟨image, hl, hc⟩
      simp only [hc, if_false]
      exact ⟨false, _, rfl⟩
  · obtain ⟨b, s', h1, _⟩ := CreateGLTexture_room stbi_load s filename tag textureID h
    exact ⟨b, s', h1⟩

/-- C12. Whatever `CreateGLTexture` returns, it returns `true` exactly when the image loaded
with three or four channels; when it returns `false` the count `m_loadedTextures` and every
entry of the table are unchanged; when it returns `true` the count has grown by exactly one
and every entry below the old count is unchanged.  The call does return whenever the image
fails to load or has another channel count, and whenever the table has a free slot. -/
theorem CreateGLTexture_registry_atomic (stbi_load : String → Option Image)
    (s : SceneManager R) (filename tag : String) (textureID : Nat) :
    (∀ (b : Bool) (s' : SceneManager R),
      CreateGLTexture stbi_load s filename textureID tag = .ok (b, s') →
        (b = true ↔ ∃ image, stbi_load filename = some image ∧
            (image.colorChannels = 3 ∨ image.colorChannels = 4)) ∧
        (b = false → s'.m_loadedTextures = s.m_loadedTextures ∧
            s'.m_textureIDs = s.m_textureIDs) ∧
        (b = true → s'.m_loadedTextures = s.m_loadedTextures + 1 ∧
            ∀ j : Fin TEXTURE_SLOTS, j.val < s.m_loadedTextures →
              s'.m_textureIDs j = s.m_textureIDs j)) ∧
    (((¬ ∃ image, stbi_load filename = some image ∧
          (image.colorChannels = 3 ∨ image.colorChannels = 4)) ∨
        s.m_loadedTextures < TEXTURE_SLOTS) →
      ∃ b s', CreateGLTexture stbi_load s filename textureID tag = .ok (b, s')) := by
  refine ⟨?_, CreateGLTexture_returns stbi_load s filename tag textureID⟩
  intro b s' h
  cases b with
  | false =>
    obtain ⟨h1, h2, h3, _, _⟩ := CreateGLTexture_false stbi_load s s' filename tag textureID h
    exact ⟨⟨fun hb => Bool.noConfusion hb, fun hl => absurd hl h1⟩, fun _ => ⟨h2, h3⟩,
      fun hb => Bool.noConfusion hb⟩
  | true =>
    obtain ⟨h1, _, h3, h4, _, _⟩ := CreateGLTexture_true stbi_load s s' filename tag textureID h
    refine ⟨⟨fun _ => h1, fun _ => rfl⟩, fun hb => Bool.noConfusion hb, fun _ => ⟨h3, ?_⟩⟩
    intro j hj
    have hne : ¬ j.val = s.m_loadedTextures := by omega
    rw [h4]
    simp only [hne, if_false]

/-- C12 at the registry `threeTextures`: a file with one channel is refused and the registry
stays as it is, a file that cannot be loaded is refused as well, and an RGB file is
registered. -/
theorem CreateGLTexture_registry_atomic_witness :
    ((false = true ↔ ∃ image, everyFileGray "./textures/glass.jpg" = some image ∧
          (image.colorChannels = 3 ∨ image.colorChannels = 4)) ∧
      (false = false →
        ({ threeTextures with gl := (threeTextures.gl.glGenTextures 42).glBindTexture 42 } :
            SceneManager ℚ).m_loadedTextures = threeTextures.m_loadedTextures ∧
        ({ threeTextures with gl := (threeTextures.gl.glGenTextures 42).glBindTexture 42 } :
            SceneManager ℚ).m_textureIDs = threeTextures.m_textureIDs) ∧
      (false = true →
        ({ threeTextures with gl := (threeTextures.gl.glGenTextures 42).glBindTexture 42 } :
            SceneManager ℚ).m_loadedTextures = threeTextures.m_loadedTextures + 1 ∧
        ∀ j : Fin TEXTURE_SLOTS, j.val < threeTextures.m_loadedTextures →
          ({ threeTextures with gl := (threeTextures.gl.glGenTextures 42).glBindTexture 42 } :
            SceneManager ℚ).m_textureIDs j = threeTextures.m_textureIDs j)) ∧
    (∃ b s', CreateGLTexture noFileLoads threeTextures "./textures/glass.jpg" 42 "glass"
        = .ok (b, s')) ∧
    (∃ b s', CreateGLTexture everyFileRGB threeTextures "./textures/glass.jpg" 42 "glass"
        = .ok (b, s')) :=
  ⟨(CreateGLTexture_registry_atomic everyFileGray threeTextures "./textures/glass.jpg" "glass"
      42).1 false _ rfl,
   (CreateGLTexture_registry_atomic noFileLoads threeTextures "./textures/glass.jpg" "glass"
      42).2 (Or.inl (by rintro ⟨im, h, _⟩; exact Option.noConfusion h)),
   (CreateGLTexture_registry_atomic everyFileRGB threeTextures "./textures/glass.jpg" "glass"
      42).2 (Or.inr (by decide))⟩

/-! ## C13: `SetShaderTexture` after `BindGLTextures` -/

/-- The loop of `BindGLTextures`, run for the first `n` slots of the table: it does not fault,
and afterwards texture unit `i` is bound to the `ID` of entry `i`, for every `i < n`. -/
theorem BindGLTextures_loop_binds (s : SceneManager R) :
    ∀ (n : Nat) (gl : GLState), n ≤ TEXTURE_SLOTS →
      ∃ gl', (List.range n).foldlM
        (fun (gl : GLState) (i : Nat) =>
          match s.readTexture i with
          | .error f => Except.error f
          | .ok e => Except.ok ((gl.glActiveTexture i).glBindTexture e.ID)) gl = .ok gl' ∧
        ∀ i, i < n → gl'.binding2D i = s.idAt i := by
  intro n
  induction n with
  | zero => intro gl _; exact ⟨gl, rfl, fun i hi => absurd hi (Nat.not_lt_zero i)⟩
  | succ n ih =>
    intro gl hn
    obtain ⟨gl₁, h1, h2⟩ := ih gl (by omega)
    have hin : n < TEXTURE_SLOTS := by omega
    rw [List.range_succ, List.foldlM_append, h1]
    simp only [List.foldlM_cons, List.foldlM_nil, readTexture_ok s hin]
    refine ⟨_, rfl, ?_⟩
    intro i hi
    by_cases hi2 : i = n
    · subst hi2
      simp [GLState.glBindTexture, GLState.glActiveTexture, idAt_eq s hin]
    · have hlt : i < n := by omega
      simp [GLState.glBindTexture, GLState.glActiveTexture, hi2, h2 i hlt]

/-- On a registry inside the table `BindGLTextures` returns the same scene manager with a new
OpenGL state, in which texture unit `i` is bound to the `ID` of entry `i` for every registered
entry. -/
theorem BindGLTextures_binds (s : SceneManager R) (h : s.m_loadedTextures ≤ TEXTURE_SLOTS) :
    ∃ gl', BindGLTextures s = .ok { s with gl := gl' } ∧
      ∀ i, i < s.m_loadedTextures → gl'.binding2D i = s.idAt i := by
  obtain ⟨gl', h1, h2⟩ := BindGLTextures_loop_binds s s.m_loadedTextures s.gl h
  refine ⟨gl', ?_, h2⟩
  unfold BindGLTextures
  rw [h1]

/-- C13. Let the registry lie inside the table, let a shader manager be attached and let
`textureTag` be registered.  Then `BindGLTextures` returns, and `SetShaderTexture textureTag`
called afterwards returns as well; there is a `k`, the index of the first entry tagged
`textureTag`, such that `BindGLTextures` has bound texture unit `GL_TEXTURE0 + k` to the `ID`
of that entry, and `SetShaderTexture` appends to the shader state exactly the writes
`"bUseTexture" := true` and `"objectTexture" := k`. -/
theorem SetShaderTexture_after_bind (s : SceneManager R) (sh : ShaderManager R)
    (textureTag : String) (hcap : s.m_loadedTextures ≤ TEXTURE_SLOTS)
    (hsh : s.m_pShaderManager = some sh)
    (hreg : ∃ i, i < s.m_loadedTextures ∧ s.tagAt i = textureTag) :
    ∃ (s₁ s₂ : SceneManager R) (k : Nat),
      BindGLTextures s = .ok s₁ ∧
      SetShaderTexture s₁ textureTag = .ok s₂ ∧
      k < s.m_loadedTextures ∧ s.tagAt k = textureTag ∧
      (∀ j, j < k → s.tagAt j ≠ textureTag) ∧
      s₁.gl.binding2D k = s.idAt k ∧
      s₂.m_pShaderManager = some ⟨sh.uniforms ++
        [("bUseTexture", .intValue 1), ("objectTexture", .sampler2DValue (k : Int))]⟩ := by
  obtain ⟨gl', hbind, hunits⟩ := BindGLTextures_binds s hcap
  obtain ⟨i, hi, hti⟩ := hreg
  rcases FindTextureSlot_cases { s with gl := gl' } textureTag hcap with
    ⟨_, h2⟩ | ⟨k, h1, h2, h3, h4⟩
  · exact absurd hti (h2 i hi)
  · have hset : SetShaderTexture { s with gl := gl' } textureTag =
        .ok { s with
              gl := gl'
              m_pShaderManager := some ⟨sh.uniforms ++
                [("bUseTexture", .intValue 1), ("objectTexture", .sampler2DValue (k : Int))]⟩ } := by
      unfold SetShaderTexture
      simp only [hsh] at h1
      simp only [hsh, h1, ShaderManager.setValue, List.append_assoc, List.singleton_append]
    exact ⟨{ s with gl := gl' }, _, k, hbind, hset, h2, h3, h4, hunits k h2, rfl⟩

/-- C13 at the registry `threeTexturesWithShader` and the tag `"wax"`, whose first entry is
entry 1 with the `ID` 9. -/
theorem SetShaderTexture_after_bind_witness :
    ∃ (s₁ s₂ : SceneManager ℚ) (k : Nat),
      BindGLTextures threeTexturesWithShader = .ok s₁ ∧
      SetShaderTexture s₁ "wax" = .ok s₂ ∧
      k < threeTexturesWithShader.m_loadedTextures ∧
      threeTexturesWithShader.tagAt k = "wax" ∧
      (∀ j, j < k → threeTexturesWithShader.tagAt j ≠ "wax") ∧
      s₁.gl.binding2D k = threeTexturesWithShader.idAt k ∧
      s₂.m_pShaderManager = some ⟨([] : List (String × UniformValue ℚ)) ++
        [("bUseTexture", .intValue 1), ("objectTexture", .sampler2DValue (k : Int))]⟩ :=
  SetShaderTexture_after_bind threeTexturesWithShader ⟨[]⟩ "wax" (by decide) rfl
    ⟨1, by decide, by decide⟩

end CS330
